import Mathlib

/-!
# Exam sessions, timers and grading

A shallow embedding of the exam-session and grading code of the repository
(`24043.h`: questions, exams, exam manager; `24052.h`/`24052.cpp`: timer,
answer sheet, session; `24002.h`: results, report cards, grading system and
grader), followed by theorems about it.

Conventions of the embedding:

* a C++ `int` is an `Int`. Where the source computes a value that can leave
  the range of `int`, the product `correct * 100` of the score and the 64-bit
  difference that `getRemainingTime` stores in an `int`, the value is reduced
  to 32 bits in two's complement (`wrapInt32`), which is what the compiled code
  does; counters and 64-bit clock arithmetic stay inside the range of their
  type. Integer division is C++ division, which truncates toward zero
  (`Int.tdiv`), and a division by zero is an explicit failure;
* `std::map<int, V>` is `StdMap V`, an association list kept in increasing key
  order with one entry per key; `m[k] = v` is `StdMap.insert`, `m.find(k)` is
  `StdMap.find`;
* `std::vector<T>` is `List T`, a possibly null pointer is an `Option`;
* a member function that mutates its object and may throw returns the outcome
  together with the object as it is left;
* an instant of `std::chrono::steady_clock` is the `Int` number of clock ticks
  since the clock's epoch, and the instant read by `steady_clock::now()` is an
  argument `now` of the function that reads it;
* `double` values (average scores) are exact rationals;
* a JSON document of the library `json.hpp` is a `Json` value, and the files of
  the working directory are a `FileSystem` passed to and returned by the
  functions that read or write them; whether a file opens for writing is an
  argument `fileOpens`; text written to `cout` and `cerr` is not modelled.
-/

namespace ExamSystem

/-! ## Machine integers -/

/-- The value of a 32-bit `int` that receives the integer `x`: `x` reduced modulo `2^32` into
the range from `-2^31` to `2^31 - 1`. -/
def wrapInt32 (x : Int) : Int := (x + 2147483648) % 4294967296 - 2147483648

/-! ## `std::map<int, V>` -/

/-- An ordered map from `int` keys, as the list of its entries in key order. -/
structure StdMap (α : Type) where
  entries : List (Int × α)
deriving DecidableEq, Repr

namespace StdMap

variable {α : Type}

/-- The map holding no entry. -/
def empty : StdMap α := ⟨[]⟩

/-- Insertion into a key-ordered entry list, replacing the value of a key already there. -/
def insertEntries (k : Int) (v : α) : List (Int × α) → List (Int × α)
  | [] => [(k, v)]
  | (k', v') :: rest =>
    if k < k' then (k, v) :: (k', v') :: rest
    else if k = k' then (k, v) :: rest
    else (k', v') :: insertEntries k v rest

/-- Lookup in an entry list. -/
def findEntries (k : Int) : List (Int × α) → Option α
  | [] => none
  | (k', v') :: rest => if k = k' then some v' else findEntries k rest

/-- The assignment `m[k] = v`. -/
def insert (m : StdMap α) (k : Int) (v : α) : StdMap α := ⟨insertEntries k v m.entries⟩

/-- The lookup `m.find(k)`: `none` stands for `m.end()`. -/
def find (m : StdMap α) (k : Int) : Option α := findEntries k m.entries

/-- The number of entries, `m.size()`. -/
def size (m : StdMap α) : Int := m.entries.length

/-- The keys in iteration order. -/
def keys (m : StdMap α) : List Int := m.entries.map Prod.fst

end StdMap

/-! ## Failures -/

/-- The ways a modelled call can fail. -/
inductive Failure where
  /-- A `GradingException` carrying its message. -/
  | gradingException (message : String)
  /-- The `std::out_of_range` thrown by `std::map::at` for a missing key. -/
  | outOfRange
  /-- An integer division whose divisor is zero. -/
  | divisionByZero
  /-- An exception of the JSON library, `nlohmann::json::exception`, with its identifier. -/
  | jsonException (id : Nat)
  /-- The `std::invalid_argument` that `std::stoi` throws. -/
  | invalidArgument
deriving DecidableEq, Repr

/-! ## Questions and exams (`24043.h`) -/

/-- The dynamic type of a question: `MCQ` with its options, or `Descriptive`. -/
inductive QuestionKind where
  | MCQ (options : List String)
  | Descriptive
deriving DecidableEq, Repr

/-- A question object: the fields of `Question` and its dynamic type. -/
structure Question where
  questionID : Int
  questionText : String
  answer : String
  kind : QuestionKind
deriving DecidableEq, Repr

namespace Question

/-- The method `Question::getQuestionID`. -/
def getQuestionID (q : Question) : Int := q.questionID

/-- The method `Question::getCorrectAnswer`. -/
def getCorrectAnswer (q : Question) : String := q.answer

/-- The virtual `checkAnswer`, with the override of each subclass. -/
def checkAnswer (q : Question) (userAnswer : String) : Bool :=
  match q.kind with
  | .MCQ _ => userAnswer == q.answer
  | .Descriptive => userAnswer == q.answer

/-- Whether `dynamic_cast<MCQ*>` of the question is non-null. -/
def isMCQ (q : Question) : Bool :=
  match q.kind with
  | .MCQ _ => true
  | .Descriptive => false

end Question

/-- An exam: `Exam` of `24043.h`. -/
structure Exam where
  examID : Int
  subject : String
  duration : Int
  questions : List Question
deriving DecidableEq, Repr

namespace Exam

/-- The method `Exam::getQuestionsCopy`: a fresh copy of every question, by dynamic type. -/
def getQuestionsCopy (e : Exam) : List Question :=
  e.questions.foldl
    (fun questionsCopy q =>
      match q.kind with
      | .MCQ options =>
        questionsCopy ++ [⟨q.getQuestionID, q.questionText, q.getCorrectAnswer, .MCQ options⟩]
      | .Descriptive =>
        questionsCopy ++ [⟨q.getQuestionID, q.questionText, q.getCorrectAnswer, .Descriptive⟩])
    []

/-- The method `Exam::checkAnswers`: per question ID, whether the stored answer is correct. -/
def checkAnswers (e : Exam) (userAnswers : StdMap String) : StdMap Bool :=
  e.questions.foldl
    (fun results q =>
      match userAnswers.find q.getQuestionID with
      | some stored => results.insert q.getQuestionID (q.checkAnswer stored)
      | none => results.insert q.getQuestionID false)
    StdMap.empty

end Exam

/-- The exam manager: its container `map<int, Exam>` and its two ID counters. -/
structure ExamManager where
  container : StdMap Exam
  currentExamID : Int
  currentQuestionID : Int
deriving DecidableEq, Repr

namespace ExamManager

/-- The method `ExamManager::getExam`: the exam, or null when the ID is not in the container. -/
def getExam (em : ExamManager) (examID : Int) : Option Exam :=
  em.container.find examID

/-- The method `ExamManager::getExamQuestions`: `container.getExams().at(examID)` and a copy of
its questions. -/
def getExamQuestions (em : ExamManager) (examID : Int) : Except Failure (List Question) :=
  match em.container.find examID with
  | some exam => .ok exam.getQuestionsCopy
  | none => .error .outOfRange

end ExamManager

/-! ## Timer, answer sheet and session (`24052.h`, `24052.cpp`) -/

/-- The timer: two instants in clock ticks, the duration in minutes, and the running flag. -/
structure Timer where
  startTime : Int
  pausedTime : Int
  duration : Int
  isRunning : Bool
deriving DecidableEq, Repr

namespace Timer

/-- The object made by `new Timer()`: zero-initialised, with `isRunning = false`. -/
def new : Timer := ⟨0, 0, 0, false⟩

/-- The method `Timer::startTimer`, called at instant `now`. -/
def startTimer (t : Timer) (now : Int) (durationMinutes : Int) : Timer :=
  { t with duration := durationMinutes, startTime := now, isRunning := true }

/-- The method `Timer::getRemainingTime`, called at instant `now`; `ticksPerMinute` is the number
of ticks of the steady clock in one minute, and `duration_cast` truncates toward zero. The
difference of the two minute counts is stored in the `int` variable `remaining`. -/
def getRemainingTime (ticksPerMinute : Int) (t : Timer) (now : Int) : Int :=
  if !t.isRunning then 0
  else
    let elapsed := Int.tdiv (now - t.startTime) ticksPerMinute
    let remaining := wrapInt32 (t.duration - elapsed)
    if remaining > 0 then remaining else 0

/-- The method `Timer::pauseTimer`, called at instant `now`. -/
def pauseTimer (t : Timer) (now : Int) : Timer :=
  if t.isRunning then { t with pausedTime := now, isRunning := false } else t

/-- The method `Timer::resumeTimer`, called at instant `now`. -/
def resumeTimer (t : Timer) (now : Int) : Timer :=
  if !t.isRunning then
    let pausedDuration := now - t.pausedTime
    { t with startTime := t.startTime + pausedDuration, isRunning := true }
  else t

end Timer

/-- The answer sheet of one student for one exam. -/
structure AnswerSheet where
  answers : StdMap String
  studentID : Int
  examID : Int
deriving DecidableEq, Repr

namespace AnswerSheet

/-- The constructor `AnswerSheet(sid, eid)`. -/
def new (sid eid : Int) : AnswerSheet := ⟨StdMap.empty, sid, eid⟩

/-- The method `AnswerSheet::addAnswer`. -/
def addAnswer (a : AnswerSheet) (questionID : Int) (answer : String) : AnswerSheet :=
  { a with answers := a.answers.insert questionID answer }

/-- The method `AnswerSheet::getAnswer`. -/
def getAnswer (a : AnswerSheet) (questionID : Int) : String :=
  match a.answers.find questionID with
  | some stored => stored
  | none => ""

/-- The method `AnswerSheet::getAllAnswers`. -/
def getAllAnswers (a : AnswerSheet) : StdMap String := a.answers

end AnswerSheet

/-- An exam session; `sheet` and `timer` are owning pointers that may be null. -/
structure ExamSession where
  studentID : Int
  examID : Int
  sheet : Option AnswerSheet
  timer : Option Timer
  examQuestions : List Question
  isFinished : Bool
deriving DecidableEq, Repr

namespace ExamSession

/-- The method `ExamSession::getStudentID`. -/
def getStudentID (s : ExamSession) : Int := s.studentID

/-- The method `ExamSession::getExamID`. -/
def getExamID (s : ExamSession) : Int := s.examID

/-- The method `ExamSession::getAnswerSheet`. -/
def getAnswerSheet (s : ExamSession) : Option AnswerSheet := s.sheet

/-- The method `ExamSession::isExamFinished`. -/
def isExamFinished (s : ExamSession) : Bool := s.isFinished

end ExamSession

/-! ## Results, report cards and the grading system (`24002.h`) -/

/-- The base class `Result`. -/
structure Result where
  studentID : Int
  examID : Int
  score : Int
  examType : String
deriving DecidableEq, Repr

namespace Result

/-- The method `Result::getScore`. -/
def getScore (r : Result) : Int := r.score

/-- The method `Result::updateScore`: the outcome and the object as it is left. -/
def updateScore (r : Result) (newScore : Int) : Except Failure Unit × Result :=
  if newScore < 0 || newScore > 100 then
    (.error (.gradingException "Invalid score value"), r)
  else
    (.ok (), { r with score := newScore })

end Result

/-- The derived class `MCQResult`. -/
structure MCQResult extends Result where
  correctAnswers : Int
  totalQuestions : Int
deriving DecidableEq, Repr

/-- The derived class `DescriptiveResult`. -/
structure DescriptiveResult extends Result where
  comments : String
  detailedFeedback : StdMap String
deriving DecidableEq, Repr

namespace MCQResult

/-- The constructor `MCQResult(sid, eid, correct, total)`: the base is built with score 0 and
the body divides by `total`. -/
def new (sid eid correct total : Int) : Except Failure MCQResult :=
  let base : Result := ⟨sid, eid, 0, "MCQ"⟩
  if total = 0 then .error .divisionByZero
  else .ok { base with score := Int.tdiv (wrapInt32 (correct * 100)) total,
                       correctAnswers := correct, totalQuestions := total }

end MCQResult

namespace DescriptiveResult

/-- The constructor `DescriptiveResult(sid, eid, sc, cmts)`. -/
def new (sid eid sc : Int) (cmts : String) : DescriptiveResult :=
  { studentID := sid, examID := eid, score := sc, examType := "Descriptive",
    comments := cmts, detailedFeedback := StdMap.empty }

/-- The method `DescriptiveResult::addQuestionFeedback`. -/
def addQuestionFeedback (r : DescriptiveResult) (questionID : Int) (feedback : String) :
    DescriptiveResult :=
  { r with detailedFeedback := r.detailedFeedback.insert questionID feedback }

/-- The method `DescriptiveResult::getDetailedFeedback`. -/
def getDetailedFeedback (r : DescriptiveResult) : StdMap String := r.detailedFeedback

end DescriptiveResult

/-- What a `shared_ptr<Result>` points to: `Result` is abstract, so an object of one of its two
derived classes. -/
inductive ResultPtr where
  | mcq (r : MCQResult)
  | descriptive (r : DescriptiveResult)
deriving DecidableEq, Repr

namespace ResultPtr

/-- The `Result` base of the object pointed to. -/
def base : ResultPtr → Result
  | .mcq r => r.toResult
  | .descriptive r => r.toResult

/-- The call `result->getStudentID()`. -/
def getStudentID (p : ResultPtr) : Int := p.base.studentID

/-- The call `result->getExamID()`. -/
def getExamID (p : ResultPtr) : Int := p.base.examID

/-- The call `result->getScore()`. -/
def getScore (p : ResultPtr) : Int := p.base.score

end ResultPtr

/-- The report card of one student. -/
structure ReportCard where
  studentID : Int
  results : List ResultPtr
  averageScore : ℚ
deriving DecidableEq, Repr

namespace ReportCard

/-- The constructor `ReportCard(sid)`. -/
def new (sid : Int) : ReportCard := ⟨sid, [], 0⟩

/-- The method `ReportCard::addResult`. -/
def addResult (c : ReportCard) (result : ResultPtr) : ReportCard :=
  let results := c.results ++ [result]
  let total : ℚ := results.foldl (fun total res => total + (res.getScore : ℚ)) 0
  { c with results := results,
           averageScore := if results.isEmpty then 0 else total / (results.length : ℚ) }

end ReportCard

/-- The state of the singleton `GradingSystem<shared_ptr<Result>>`. -/
structure GradingSystem where
  results : StdMap (List ResultPtr)
  reportCards : StdMap ReportCard
deriving DecidableEq, Repr

namespace GradingSystem

/-- The state of a freshly constructed grading system. -/
def new : GradingSystem := ⟨StdMap.empty, StdMap.empty⟩

/-- The method `GradingSystem::gradeExam`; `results[studentID]` creates an empty vector for a
student not yet in the map. -/
def gradeExam (gs : GradingSystem) (result : ResultPtr) : GradingSystem :=
  let studentID := result.getStudentID
  let held := match gs.results.find studentID with
    | some v => v
    | none => []
  let results := gs.results.insert studentID (held ++ [result])
  match gs.reportCards.find studentID with
  | some card => { results := results, reportCards := gs.reportCards.insert studentID (card.addResult result) }
  | none => { results := results, reportCards := gs.reportCards }

end GradingSystem

/-! ## The grader (`24002.h`, `ExamGrader`) -/

namespace ExamGrader

/-- The counting loop of `gradeExamSession` over the map returned by `checkAnswers`. -/
def correctCount (results : StdMap Bool) : Int :=
  results.entries.foldl (fun correctCount entry => if entry.2 then correctCount + 1 else correctCount) 0

/-- The local `totalQuestions` of `gradeExamSession`: `results.size()`. -/
def totalQuestions (results : StdMap Bool) : Int := results.size

/-- The local `percentScore` of `gradeExamSession`. -/
def percentScore (correctCount totalQuestions : Int) : Int :=
  if totalQuestions > 0 then Int.tdiv (wrapInt32 (correctCount * 100)) totalQuestions else 0

/-- The loop of `gradeExamSession` that sets `hasMCQ`, leaving at the first `MCQ`. -/
def hasMCQ : List Question → Bool
  | [] => false
  | q :: rest => if q.isMCQ then true else hasMCQ rest

/-- The feedback text `gradeExamSession` gives one question of a descriptive exam. -/
def feedback (userAnswers : StdMap String) (q : Question) : String :=
  match userAnswers.find q.getQuestionID with
  | some stored =>
    if q.checkAnswer stored then "Correct answer. Full points awarded."
    else "Incorrect answer. Expected: " ++ q.getCorrectAnswer
  | none => "No answer provided."

/-- The part of `gradeExamSession` from the call of `checkAnswers` to the assignment of `result`:
the Result object built for the authoritative exam, its question copy and the user's answers. -/
def buildResult (studentID examID : Int) (exam : Exam) (questions : List Question)
    (userAnswers : StdMap String) : Except Failure ResultPtr :=
  let results := exam.checkAnswers userAnswers
  let correctCount := correctCount results
  let totalQuestions := totalQuestions results
  let percentScore := percentScore correctCount totalQuestions
  if hasMCQ questions then
    match MCQResult.new studentID examID correctCount totalQuestions with
    | .ok r => .ok (.mcq r)
    | .error e => .error e
  else
    let descResult := questions.foldl
      (fun (descResult : DescriptiveResult) q =>
        descResult.addQuestionFeedback q.getQuestionID (feedback userAnswers q))
      (DescriptiveResult.new studentID examID percentScore "")
    .ok (.descriptive descResult)

/-- The method `ExamGrader::gradeExamSession`, on the exam manager `em` and the grading system
`gs`; `fileOpens` tells whether the result file can be opened for writing. Returns the outcome
and the grading system as it is left. -/
def gradeExamSession (em : ExamManager) (fileOpens : Bool) (gs : GradingSystem)
    (session : Option ExamSession) : Except Failure Unit × GradingSystem :=
  match session with
  | none => (.error (.gradingException "Invalid exam session provided for grading"), gs)
  | some session =>
    let studentID := session.getStudentID
    let examID := session.getExamID
    match session.getAnswerSheet with
    | none => (.error (.gradingException "No answer sheet found in session"), gs)
    | some sheet =>
      let userAnswers := sheet.getAllAnswers
      match em.getExam examID with
      | none => (.error (.gradingException "Exam not found for grading"), gs)
      | some exam =>
        match em.getExamQuestions examID with
        | .error e => (.error e, gs)
        | .ok questions =>
          match buildResult studentID examID exam questions userAnswers with
          | .error e => (.error e, gs)
          | .ok result =>
            let graded := gs.gradeExam result
            if fileOpens then (.ok (), graded)
            else (.error (.gradingException "Failed to save result to file"), graded)

end ExamGrader

/-! ## The grading rules in the words of the specification -/

/-- Whether the answer stored for the question equals its correct answer; an unanswered
question does not match. -/
def answerMatches (userAnswers : StdMap String) (q : Question) : Bool :=
  match userAnswers.find q.questionID with
  | some stored => decide (stored = q.answer)
  | none => false

/-- The feedback text of a question as the specification words it. -/
def expectedFeedback (userAnswers : StdMap String) (q : Question) : String :=
  match userAnswers.find q.questionID with
  | none => "No answer provided."
  | some stored =>
    if stored = q.answer then "Correct answer. Full points awarded."
    else "Incorrect answer. Expected: " ++ q.answer

/-! ## Sample data -/

/-- A session of student `sid` for exam `eid` holding the given answers, not finished. -/
def sampleSession (sid eid : Int) (answers : List (Int × String)) : ExamSession :=
  { studentID := sid, examID := eid, sheet := some ⟨⟨answers⟩, sid, eid⟩,
    timer := some Timer.new, examQuestions := [], isFinished := false }

/-- An exam manager holding the single exam `e`. -/
def sampleManager (e : Exam) : ExamManager :=
  { container := ⟨[(e.examID, e)]⟩, currentExamID := 1000, currentQuestionID := 1 }

/-- Two multiple-choice questions with correct answers A and B. -/
def mcqExam : Exam :=
  { examID := 1000, subject := "Algebra", duration := 30,
    questions := [⟨1, "Q1", "A", .MCQ ["A", "B", "C", "D"]⟩, ⟨2, "Q2", "B", .MCQ ["A", "B", "C", "D"]⟩] }

/-- Two descriptive questions. -/
def descriptiveExam : Exam :=
  { examID := 1001, subject := "History", duration := 45,
    questions := [⟨1, "Q1", "Rome", .Descriptive⟩, ⟨2, "Q2", "Paris", .Descriptive⟩] }

/-- One descriptive question followed by one multiple-choice question. -/
def mixedExam : Exam :=
  { examID := 1002, subject := "Mixed", duration := 20,
    questions := [⟨1, "Q1", "Rome", .Descriptive⟩, ⟨2, "Q2", "B", .MCQ ["A", "B"]⟩] }

/-- Two multiple-choice questions sharing the question ID 1. -/
def duplicateIdExam : Exam :=
  { examID := 1003, subject := "Repeat", duration := 10,
    questions := [⟨1, "Q1", "A", .MCQ ["A", "B"]⟩, ⟨1, "Q1 again", "B", .MCQ ["A", "B"]⟩] }

/-- An exam without questions. -/
def emptyExam : Exam :=
  { examID := 1004, subject := "Empty", duration := 5, questions := [] }

/-! ## JSON documents and session files (`json.hpp`, `24052.cpp`) -/

/-- Whether a `catch (const exception&)` handler catches the failure: every modelled exception
derives from `std::exception`, a division by zero is no exception. -/
def Failure.isException : Failure → Bool
  | .divisionByZero => false
  | _ => true

/-- A value of the JSON library (`nlohmann::json`); an object lists its members in key order.
Numbers are the integer numbers, which are the only ones the program writes. -/
inductive Json where
  | null
  | boolean (b : Bool)
  | number (n : Int)
  | string (s : String)
  | array (elements : List Json)
  | object (members : List (String × Json))

namespace Json

/-- The JSON value the library makes of a `std::map<int, string>`: the key type `int` does not
construct a string, so the map is not taken as an object but as a sequence of pairs, and the
value is the array of the two-element arrays `[key, text]`. -/
def ofAnswers (answers : StdMap String) : Json :=
  .array (answers.entries.map (fun entry => .array [.number entry.1, .string entry.2]))

/-- The member lookup of an object. -/
def findMember (key : String) : List (String × Json) → Option Json
  | [] => none
  | (k, v) :: rest => if key = k then some v else findMember key rest

/-- The access `j[key]` on a non-const value: the member of an object, `null` for a key the
object does not hold and on a `null` value, and the exception `type_error.305` on every other
value. -/
def member (j : Json) (key : String) : Except Failure Json :=
  match j with
  | .null => .ok .null
  | .object members =>
    match findMember key members with
    | some v => .ok v
    | none => .ok .null
  | _ => .error (.jsonException 305)

/-- The conversion of a JSON value to `int`: numbers and booleans convert, every other value
throws `type_error.302`. -/
def getInt : Json → Except Failure Int
  | .number n => .ok n
  | .boolean b => .ok (if b then 1 else 0)
  | _ => .error (.jsonException 302)

/-- The conversion of a JSON value to `bool`. -/
def getBool : Json → Except Failure Bool
  | .boolean b => .ok b
  | _ => .error (.jsonException 302)

/-- The conversion of a JSON value to `std::string`. -/
def getString : Json → Except Failure String
  | .string s => .ok s
  | _ => .error (.jsonException 302)

/-- The positions visited from `begin()` to `end()`, each with what `it.key()` and `it.value()`
give there. Only an object iterator has a key: on the elements of an array, and on the single
position of a primitive value, `key()` throws `invalid_iterator.207`; `null` has no position. -/
def items : Json → List (Except Failure String × Json)
  | .null => []
  | .object members => members.map (fun m => (.ok m.1, m.2))
  | .array elements => elements.map (fun v => (.error (.jsonException 207), v))
  | .boolean b => [(.error (.jsonException 207), .boolean b)]
  | .number n => [(.error (.jsonException 207), .number n)]
  | .string s => [(.error (.jsonException 207), .string s)]

end Json

/-- The files of the working directory that hold a JSON document, by file name; what is
written with `j.dump(4)` is read back by `file >> j` as the same JSON value. -/
structure FileSystem where
  files : List (String × Json)

namespace FileSystem

/-- The document read from the file of that name; `none` when the file cannot be opened. -/
def read (fs : FileSystem) (name : String) : Option Json :=
  match fs.files.find? (fun f => f.1 == name) with
  | some f => some f.2
  | none => none

/-- The file system after the file of that name is written with the document. -/
def write (fs : FileSystem) (name : String) (content : Json) : FileSystem :=
  ⟨(name, content) :: fs.files.filter (fun f => f.1 != name)⟩

end FileSystem

/-- The name of the session file of a student and an exam. -/
def sessionFileName (sid eid : Int) : String :=
  "session_" ++ toString sid ++ "_" ++ toString eid ++ ".json"

/-- The method `ExamManager::getExamDuration`: `container.getExams().at(examID)` and its
duration. -/
def ExamManager.getExamDuration (em : ExamManager) (examID : Int) : Except Failure Int :=
  match em.container.find examID with
  | some exam => .ok exam.duration
  | none => .error .outOfRange

/-! ## Session operations (`24052.cpp`) -/

namespace ExamSession

/-- The default constructor `ExamSession()`. -/
def new : ExamSession :=
  { studentID := 0, examID := 0, sheet := none, timer := none, examQuestions := [],
    isFinished := false }

/-- The constructor `ExamSession(sid, eid)`, on the exam manager `em`. -/
def newFor (em : ExamManager) (sid eid : Int) : ExamSession :=
  { studentID := sid, examID := eid, sheet := some (AnswerSheet.new sid eid),
    timer := some Timer.new,
    examQuestions :=
      match em.getExam eid with
      | some _ =>
        match em.getExamQuestions eid with
        | .ok questions => questions
        | .error _ => []
      | none => [],
    isFinished := false }

/-- The method `ExamSession::startExam`, called at instant `now`: the outcome and the session
as it is left. The calls `getExamDuration` and `getExamQuestions` throw for an exam that the
manager does not hold, after the identity is assigned. -/
def startExam (s : ExamSession) (em : ExamManager) (now : Int) (sid eid : Int) :
    Except Failure Unit × ExamSession :=
  if s.studentID == 0 && s.examID == 0 then
    let bound : ExamSession :=
      { s with
        studentID := sid, examID := eid,
        sheet := some (match s.sheet with
          | some sheet => sheet
          | none => AnswerSheet.new sid eid),
        timer := some (match s.timer with
          | some timer => timer
          | none => Timer.new) }
    match em.getExamDuration eid with
    | .error e => (.error e, bound)
    | .ok duration =>
      match em.getExamQuestions eid with
      | .error e => (.error e, bound)
      | .ok questions =>
        (.ok (), { bound with
          examQuestions := questions,
          timer := match bound.timer with
            | some timer => some (timer.startTimer now duration)
            | none => none })
  else (.ok (), s)

/-- The method `ExamSession::submitAnswer`; it has no throwing path. -/
def submitAnswer (s : ExamSession) (questionID : Int) (answer : String) : ExamSession :=
  if s.isFinished then s
  else
    match s.sheet with
    | some sheet => { s with sheet := some (sheet.addAnswer questionID answer) }
    | none => s

/-- The JSON document that `saveSessionToFile` builds. -/
def toJson (s : ExamSession) : Json :=
  .object
    ((match s.sheet with
      | some sheet => [("answers", Json.ofAnswers sheet.getAllAnswers)]
      | none => [])
    ++ [("examID", .number s.examID), ("isFinished", .boolean s.isFinished),
        ("studentID", .number s.studentID)])

/-- The method `ExamSession::saveSessionToFile`; `fileOpens` tells whether the session file can
be opened for writing. The session is not changed and nothing is thrown. -/
def saveSessionToFile (s : ExamSession) (fileOpens : Bool) (fs : FileSystem) : FileSystem :=
  if fileOpens then fs.write (sessionFileName s.studentID s.examID) s.toJson else fs

/-- The method `ExamSession::finishExam`, called at instant `now`: the session and the file
system as they are left. -/
def finishExam (s : ExamSession) (now : Int) (fileOpens : Bool) (fs : FileSystem) :
    ExamSession × FileSystem :=
  if !s.isFinished then
    let finished : ExamSession :=
      { s with
        isFinished := true,
        timer := match s.timer with
          | some timer => some (timer.pauseTimer now)
          | none => none }
    (finished, finished.saveSessionToFile fileOpens fs)
  else (s, fs)

/-- The loop of `loadSessionFromFile` over the positions of `j["answers"]`; `stoi` is
`std::stoi`. -/
def loadAnswers (stoi : String → Except Failure Int) :
    List (Except Failure String × Json) → AnswerSheet → Except Failure Unit × AnswerSheet
  | [], sheet => (.ok (), sheet)
  | (key, value) :: rest, sheet =>
    match key with
    | .error e => (.error e, sheet)
    | .ok k =>
      match stoi k with
      | .error e => (.error e, sheet)
      | .ok qID =>
        match value.getString with
        | .error e => (.error e, sheet)
        | .ok ans => loadAnswers stoi rest (sheet.addAnswer qID ans)

/-- The method `ExamSession::loadSessionFromFile`: the outcome and the session as it is left;
`stoi` is `std::stoi`. -/
def loadSessionFromFile (s : ExamSession) (em : ExamManager)
    (stoi : String → Except Failure Int) (fs : FileSystem) (sid eid : Int) :
    Except Failure Unit × ExamSession :=
  match fs.read (sessionFileName sid eid) with
  | some j =>
    match (j.member "studentID").bind Json.getInt with
    | .error e => (.error e, s)
    | .ok studentID =>
      let s1 : ExamSession := { s with studentID := studentID }
      match (j.member "examID").bind Json.getInt with
      | .error e => (.error e, s1)
      | .ok examID =>
        let s2 : ExamSession := { s1 with examID := examID }
        match (j.member "isFinished").bind Json.getBool with
        | .error e => (.error e, s2)
        | .ok isFinished =>
          let s3 : ExamSession := { s2 with isFinished := isFinished }
          let sheet := match s3.sheet with
            | some sheet => sheet
            | none => AnswerSheet.new studentID examID
          match j.member "answers" with
          | .error e => (.error e, { s3 with sheet := some sheet })
          | .ok answersJson =>
            match loadAnswers stoi answersJson.items sheet with
            | (.error e, loaded) => (.error e, { s3 with sheet := some loaded })
            | (.ok (), loaded) =>
              let s4 : ExamSession := { s3 with sheet := some loaded }
              match em.getExamQuestions examID with
              | .error e => (.error e, s4)
              | .ok questions => (.ok (), { s4 with examQuestions := questions })
  | none =>
    let s1 : ExamSession :=
      { s with
        studentID := sid, examID := eid,
        sheet := some (match s.sheet with
          | some sheet => sheet
          | none => AnswerSheet.new sid eid),
        timer := some (match s.timer with
          | some timer => timer
          | none => Timer.new) }
    match em.getExamQuestions eid with
    | .error e => (.error e, s1)
    | .ok questions => (.ok (), { s1 with examQuestions := questions })

end ExamSession

/-- The state of the singleton `SessionManager`: the sessions its vector points to. -/
structure SessionManager where
  sessions : List ExamSession
deriving DecidableEq, Repr

namespace SessionManager

/-- Whether the session has the key `(studentID, examID)`. -/
def hasKey (studentID examID : Int) (session : ExamSession) : Bool :=
  session.getStudentID == studentID && session.getExamID == examID

/-- The method `SessionManager::startSession`, called at instant `now`: the outcome and the
registry as it is left. An exception of `startExam` leaves before the `push_back`. -/
def startSession (sm : SessionManager) (em : ExamManager) (now : Int) (studentID examID : Int) :
    Except Failure Unit × SessionManager :=
  match sm.sessions.find? (hasKey studentID examID) with
  | some _ => (.ok (), sm)
  | none =>
    let newSession := ExamSession.newFor em studentID examID
    match newSession.startExam em now studentID examID with
    | (.error e, _) => (.error e, sm)
    | (.ok (), started) => (.ok (), { sessions := sm.sessions ++ [started] })

/-- The method `SessionManager::getSession`: the outcome, with the session returned (`none` for
a null pointer), and the registry as it is left. An exception of `loadSessionFromFile` leaves
before the registry is touched. -/
def getSession (sm : SessionManager) (em : ExamManager) (stoi : String → Except Failure Int)
    (fs : FileSystem) (studentID examID : Int) :
    Except Failure (Option ExamSession) × SessionManager :=
  match sm.sessions.find? (hasKey studentID examID) with
  | some session => (.ok (some session), sm)
  | none =>
    match ExamSession.new.loadSessionFromFile em stoi fs studentID examID with
    | (.error e, _) => (.error e, sm)
    | (.ok (), newSession) =>
      if newSession.getStudentID == studentID && newSession.getExamID == examID then
        (.ok (some newSession), { sessions := sm.sessions ++ [newSession] })
      else (.ok none, sm)

/-- The method `SessionManager::getAllSessions`. -/
def getAllSessions (sm : SessionManager) : List ExamSession := sm.sessions

end SessionManager

/-! ## Grading every finished session (`24002.h`) -/

/-- The loop of `gradeAllCompletedSessions` from the count and grading system reached so far;
`fileOpens sid eid` tells whether the result file of that student and exam can be opened for
writing. A failure that the `catch (const exception&)` does not catch ends the loop. -/
def ExamGrader.gradeLoop (em : ExamManager) (fileOpens : Int → Int → Bool) :
    List ExamSession → Int → GradingSystem → Except Failure (Int × GradingSystem)
  | [], gradedCount, gs => .ok (gradedCount, gs)
  | session :: rest, gradedCount, gs =>
    if session.isExamFinished then
      match ExamGrader.gradeExamSession em (fileOpens session.getStudentID session.getExamID) gs
          (some session) with
      | (.ok (), graded) => ExamGrader.gradeLoop em fileOpens rest (gradedCount + 1) graded
      | (.error e, left) =>
        if e.isException then ExamGrader.gradeLoop em fileOpens rest gradedCount left
        else .error e
    else ExamGrader.gradeLoop em fileOpens rest gradedCount gs

/-- The method `ExamGrader::gradeAllCompletedSessions`: the count it reports and the grading
system as it is left. -/
def ExamGrader.gradeAllCompletedSessions (em : ExamManager) (fileOpens : Int → Int → Bool)
    (sm : SessionManager) (gs : GradingSystem) : Except Failure (Int × GradingSystem) :=
  ExamGrader.gradeLoop em fileOpens sm.getAllSessions 0 gs

/-! ## Batch grading in the words of the specification -/

/-- Grading the given sessions one after the other: every session is attempted on the grading
system its predecessor left, whatever the outcome of that predecessor. Returns the number of
attempts that succeeded and the grading system left by the last attempt. -/
def gradeEach (em : ExamManager) (fileOpens : Int → Int → Bool) :
    List ExamSession → GradingSystem → Int × GradingSystem
  | [], gs => (0, gs)
  | session :: rest, gs =>
    let attempt :=
      ExamGrader.gradeExamSession em (fileOpens session.studentID session.examID) gs (some session)
    let later := gradeEach em fileOpens rest attempt.2
    ((match attempt.1 with
      | .ok _ => 1
      | .error _ => 0) + later.1, later.2)

/-! ## More sample data -/

/-- An exam with the exam ID 0 and no question. -/
def zeroExam : Exam :=
  { examID := 0, subject := "Zero", duration := 30, questions := [] }

/-- An exam manager holding `zeroExam` and `mcqExam`. -/
def zeroManager : ExamManager :=
  { container := ⟨[(0, zeroExam), (1000, mcqExam)]⟩, currentExamID := 1001,
    currentQuestionID := 3 }

/-- An implementation of `std::stoi` on the decimal numerals without sign. -/
def sampleStoi (text : String) : Except Failure Int :=
  match text.toNat? with
  | some n => .ok n
  | none => .error .invalidArgument

/-- A grading system holding an empty report card for student 7, and one result of score 40
with its report card for student 8. -/
def twoStudentSystem : GradingSystem :=
  { results := ⟨[(8, [.mcq ⟨⟨8, 1000, 40, "MCQ"⟩, 2, 5⟩])]⟩,
    reportCards := ⟨[(7, ReportCard.new 7), (8, ⟨8, [.mcq ⟨⟨8, 1000, 40, "MCQ"⟩, 2, 5⟩], 40⟩)]⟩ }

/-- The grading system after the session of student 7 for exam 1000 was graded with the score
50: the store holds that one Result and there is no report card. -/
def gradedSystem : GradingSystem :=
  { results := ⟨[(7, [.mcq ⟨⟨7, 1000, 50, "MCQ"⟩, 1, 2⟩])]⟩, reportCards := ⟨[]⟩ }

/-- The `n` multiple-choice questions with the question IDs 1 to `n`, each with the correct
answer A. -/
def numberedQuestions (n : Nat) : List Question :=
  (List.range n).map (fun (i : Nat) => ⟨(i : Int) + 1, "Q", "A", .MCQ ["A", "B"]⟩)

/-- The answer A to each of the questions 1 to `n`, in key order. -/
def numberedAnswers (n : Nat) : List (Int × String) :=
  (List.range n).map (fun (i : Nat) => ((i : Int) + 1, "A"))

/-- An exam of 30,000,000 multiple-choice questions. -/
def largeExam : Exam :=
  { examID := 2000, subject := "Large", duration := 600, questions := numberedQuestions 30000000 }

/-- A Result with the given score, of student 7 for the exam of that ID. -/
def sampleResult (examID score : Int) : ResultPtr :=
  .descriptive { studentID := 7, examID := examID, score := score, examType := "Descriptive",
                 comments := "", detailedFeedback := StdMap.empty }

/-! ## Answer-sheet updates, ending a session, report cards and statistics -/

/-- The assignment `it->second = v` through the iterator that `find(k)` returns: the value of
the first entry with the key is replaced. -/
def StdMap.assignEntries {α : Type} (k : Int) (v : α) : List (Int × α) → List (Int × α)
  | [] => []
  | (k', v') :: rest =>
    if k = k' then (k', v) :: rest else (k', v') :: StdMap.assignEntries k v rest

/-- The method `AnswerSheet::updateAnswer`. -/
def AnswerSheet.updateAnswer (a : AnswerSheet) (questionID : Int) (newAnswer : String) :
    AnswerSheet :=
  match a.answers.find questionID with
  | some _ => { a with answers := ⟨StdMap.assignEntries questionID newAnswer a.answers.entries⟩ }
  | none => a

/-- The loop of `SessionManager::endSession` over the sessions: the first session with the key
is finished at instant `now` and the loop returns. -/
def SessionManager.endSessionLoop (now : Int) (fileOpens : Bool) (studentID examID : Int) :
    List ExamSession → FileSystem → List ExamSession × FileSystem
  | [], fs => ([], fs)
  | session :: rest, fs =>
    if session.getStudentID == studentID && session.getExamID == examID then
      ((session.finishExam now fileOpens fs).1 :: rest, (session.finishExam now fileOpens fs).2)
    else
      (session :: (SessionManager.endSessionLoop now fileOpens studentID examID rest fs).1,
       (SessionManager.endSessionLoop now fileOpens studentID examID rest fs).2)

/-- The method `SessionManager::endSession`, called at instant `now`: the registry and the file
system as they are left. -/
def SessionManager.endSession (sm : SessionManager) (now : Int) (fileOpens : Bool)
    (fs : FileSystem) (studentID examID : Int) : SessionManager × FileSystem :=
  ({ sessions := (SessionManager.endSessionLoop now fileOpens studentID examID sm.sessions fs).1 },
   (SessionManager.endSessionLoop now fileOpens studentID examID sm.sessions fs).2)

/-- The method `GradingSystem::getStudentResults`. -/
def GradingSystem.getStudentResults (gs : GradingSystem) (studentID : Int) :
    Except Failure (List ResultPtr) :=
  match gs.results.find studentID with
  | some held => .ok held
  | none => .error (.gradingException "Student not found")

/-- The method `GradingSystem::getReportCard`. -/
def GradingSystem.getReportCard (gs : GradingSystem) (studentID : Int) :
    Except Failure ReportCard :=
  match gs.reportCards.find studentID with
  | some card => .ok card
  | none => .error (.gradingException "Report card not found")

/-- The method `ReportCard::generateReport`, reading the grading system `gs`: the outcome and
the card as it is left. The only exception of `getStudentResults` is a `GradingException`, which
the handler throws again with its message prefixed. -/
def ReportCard.generateReport (c : ReportCard) (gs : GradingSystem) (sid : Int) :
    Except Failure Unit × ReportCard :=
  match gs.getStudentResults sid with
  | .error (.gradingException message) =>
    (.error (.gradingException ("Failed to generate report: " ++ message)), c)
  | .error e => (.error e, c)
  | .ok studentResults =>
    let filled := studentResults.foldl
      (fun (acc : List ResultPtr × ℚ) res => (acc.1 ++ [res], acc.2 + (res.getScore : ℚ)))
      ([], 0)
    (.ok (), { c with
      results := filled.1,
      averageScore := if filled.1.isEmpty then 0 else filled.2 / (filled.1.length : ℚ) })

/-- The method `GradingSystem::generateReportCard`: the outcome and the grading system as it is
left. The card of the student, a new one when the map holds none, is in the map before
`generateReport` runs on it, and stays there when `generateReport` throws. -/
def GradingSystem.generateReportCard (gs : GradingSystem) (studentID : Int) :
    Except Failure Unit × GradingSystem :=
  let card := match gs.reportCards.find studentID with
    | some card => card
    | none => ReportCard.new studentID
  let generated := card.generateReport gs studentID
  (generated.1, { gs with reportCards := gs.reportCards.insert studentID generated.2 })

/-- The method `ExamManager::getExamSubject`: `container.getExams().at(examID)` and its
subject. -/
def ExamManager.getExamSubject (em : ExamManager) (examID : Int) : Except Failure String :=
  match em.container.find examID with
  | some exam => .ok exam.subject
  | none => .error .outOfRange

/-- The figures `displayExamStatistics` prints. -/
structure StatisticsDisplay where
  examID : Int
  subject : String
  numberOfStudents : Nat
  averageScore : ℚ
  highestScore : Int
  lowestScore : Int
deriving DecidableEq, Repr

/-- The first loop of `displayExamStatistics`, from the `examResults` collected so far: for
every session of the exam that is finished, the results of its student for the exam; a student
without results is skipped. -/
def ExamGrader.collectExamResults (gs : GradingSystem) (examID : Int) :
    List ExamSession → List ResultPtr → List ResultPtr
  | [], examResults => examResults
  | session :: rest, examResults =>
    if session.getExamID == examID && session.isExamFinished then
      match gs.getStudentResults session.getStudentID with
      | .ok studentResults =>
        ExamGrader.collectExamResults gs examID rest
          (studentResults.foldl
            (fun collected result =>
              if result.getExamID == examID then collected ++ [result] else collected)
            examResults)
      | .error _ => ExamGrader.collectExamResults gs examID rest examResults
    else ExamGrader.collectExamResults gs examID rest examResults

/-- The method `ExamGrader::displayExamStatistics`: what it prints, `none` standing for the
line "No results found", or the exception of `getExamSubject`. -/
def ExamGrader.displayExamStatistics (em : ExamManager) (sm : SessionManager)
    (gs : GradingSystem) (examID : Int) : Except Failure (Option StatisticsDisplay) :=
  let examResults := ExamGrader.collectExamResults gs examID sm.getAllSessions []
  if examResults.isEmpty then .ok none
  else
    let totals := examResults.foldl
      (fun (acc : ℚ × Int × Int) result =>
        let score : Int := result.getScore
        (acc.1 + (score : ℚ),
         if score > acc.2.1 then score else acc.2.1,
         if score < acc.2.2 then score else acc.2.2))
      (0, 0, 100)
    let averageScore := totals.1 / (examResults.length : ℚ)
    match em.getExamSubject examID with
    | .error e => .error e
    | .ok examSubject =>
      .ok (some
        { examID := examID, subject := examSubject, numberOfStudents := examResults.length,
          averageScore := averageScore, highestScore := totals.2.1, lowestScore := totals.2.2 })

/-! ## Report cards and statistics in the words of the specification -/

/-- The arithmetic mean of the scores of the results, and 0 for no result. -/
def meanScore (results : List ResultPtr) : ℚ :=
  if results.isEmpty then 0
  else (results.map (fun res => (res.getScore : ℚ))).sum / (results.length : ℚ)

/-- A report card agrees with the result store: its sequence of results is the sequence the
store holds for the student, the empty one when the store has no entry, and its average is the
mean of their scores. -/
def GradingSystem.Consistent (gs : GradingSystem) : Prop :=
  ∀ (studentID : Int) (card : ReportCard), gs.reportCards.find studentID = some card →
    card.results = (gs.results.find studentID).getD [] ∧ card.averageScore = meanScore card.results

/-- The grading systems reached from the empty one by `gradeExam` and `generateReportCard`
calls, whether a `generateReportCard` call succeeds or throws. -/
inductive GradingSystem.Reachable : GradingSystem → Prop where
  | empty : GradingSystem.Reachable GradingSystem.new
  | gradeExam (gs : GradingSystem) (result : ResultPtr) :
      GradingSystem.Reachable gs → GradingSystem.Reachable (gs.gradeExam result)
  | generateReportCard (gs : GradingSystem) (studentID : Int) :
      GradingSystem.Reachable gs → GradingSystem.Reachable (gs.generateReportCard studentID).2

/-- The Results that the statistics of an exam range over: for every finished session of the
registry for that exam, in registry order, the results the store holds for the student of the
session that are results of the exam. -/
def statisticsResults (sm : SessionManager) (gs : GradingSystem) (examID : Int) :
    List ResultPtr :=
  (sm.sessions.filter (fun session => session.examID == examID && session.isFinished)).flatMap
    (fun session =>
      ((gs.results.find session.studentID).getD []).filter
        (fun result => result.getExamID == examID))

/-! ## Facts about `StdMap` -/

namespace StdMap

variable {α : Type}

theorem findEntries_insertEntries_self (k : Int) (v : α) (l : List (Int × α)) :
    findEntries k (insertEntries k v l) = some v := by
  induction l with
  | nil => simp [insertEntries, findEntries]
  | cons e rest ih =>
    obtain ⟨k', v'⟩ := e
    unfold insertEntries
    by_cases h1 : k < k'
    · simp [h1, findEntries]
    · by_cases h2 : k = k'
      · simp [h2, findEntries]
      · simp [h1, h2, findEntries, ih]

theorem findEntries_insertEntries_of_ne {j k : Int} (h : j ≠ k) (v : α) (l : List (Int × α)) :
    findEntries j (insertEntries k v l) = findEntries j l := by
  induction l with
  | nil => simp [insertEntries, findEntries, h]
  | cons e rest ih =>
    obtain ⟨k', v'⟩ := e
    unfold insertEntries
    by_cases h1 : k < k'
    · simp [h1, findEntries, h]
    · by_cases h2 : k = k'
      · subst h2
        simp [findEntries, h]
      · simp [h1, h2, findEntries, ih]

theorem findEntries_eq_none {k : Int} {l : List (Int × α)} (h : k ∉ l.map Prod.fst) :
    findEntries k l = none := by
  induction l with
  | nil => rfl
  | cons e rest ih =>
    obtain ⟨k', v'⟩ := e
    simp only [List.map_cons, List.mem_cons, not_or] at h
    simp [findEntries, h.1, ih h.2]

theorem mem_keys_insertEntries {j k : Int} (v : α) (l : List (Int × α)) :
    j ∈ (insertEntries k v l).map Prod.fst ↔ j = k ∨ j ∈ l.map Prod.fst := by
  induction l with
  | nil => simp [insertEntries]
  | cons e rest ih =>
    obtain ⟨k', v'⟩ := e
    unfold insertEntries
    by_cases h1 : k < k'
    · simp [h1]
    · by_cases h2 : k = k'
      · subst h2
        simp
      · simp only [h1, h2, if_false, List.map_cons, List.mem_cons, ih]
        tauto

theorem insertEntries_perm {k : Int} {l : List (Int × α)} (h : k ∉ l.map Prod.fst) (v : α) :
    (insertEntries k v l).Perm ((k, v) :: l) := by
  induction l with
  | nil => simp [insertEntries]
  | cons e rest ih =>
    obtain ⟨k', v'⟩ := e
    simp only [List.map_cons, List.mem_cons, not_or] at h
    unfold insertEntries
    by_cases h1 : k < k'
    · simp [h1]
    · simp only [h1, h.1, if_false]
      exact ((ih h.2).cons (k', v')).trans (List.Perm.swap _ _ _)

theorem length_insertEntries_pos (k : Int) (v : α) (l : List (Int × α)) :
    0 < (insertEntries k v l).length := by
  cases l with
  | nil => simp [insertEntries]
  | cons e rest =>
    obtain ⟨k', v'⟩ := e
    unfold insertEntries
    split_ifs <;> simp

theorem length_le_length_insertEntries (k : Int) (v : α) (l : List (Int × α)) :
    l.length ≤ (insertEntries k v l).length := by
  induction l with
  | nil => simp
  | cons e rest ih =>
    obtain ⟨k', v'⟩ := e
    unfold insertEntries
    split_ifs <;> simp [ih]

end StdMap

/-! ## Facts about exams and the grader -/

theorem Question.checkAnswer_eq (q : Question) (userAnswer : String) :
    q.checkAnswer userAnswer = decide (userAnswer = q.answer) := by
  unfold Question.checkAnswer
  cases q.kind <;> rfl

theorem Exam.foldl_copy (qs acc : List Question) :
    qs.foldl
      (fun questionsCopy q =>
        match q.kind with
        | .MCQ options =>
          questionsCopy ++ [⟨q.getQuestionID, q.questionText, q.getCorrectAnswer, .MCQ options⟩]
        | .Descriptive =>
          questionsCopy ++ [⟨q.getQuestionID, q.questionText, q.getCorrectAnswer, .Descriptive⟩])
      acc = acc ++ qs := by
  induction qs generalizing acc with
  | nil => simp
  | cons q rest ih =>
    rw [List.foldl_cons, ih]
    obtain ⟨i, t, a, kind⟩ := q
    cases kind <;> simp [Question.getQuestionID, Question.getCorrectAnswer]

theorem Exam.getQuestionsCopy_eq (e : Exam) : e.getQuestionsCopy = e.questions := by
  unfold Exam.getQuestionsCopy
  rw [Exam.foldl_copy]
  simp

theorem Exam.foldl_check_perm (userAnswers : StdMap String) (qs : List Question)
    (acc : StdMap Bool) (hnd : (qs.map Question.questionID).Nodup)
    (hacc : ∀ q ∈ qs, q.questionID ∉ acc.entries.map Prod.fst) :
    (qs.foldl
      (fun results q =>
        match userAnswers.find q.getQuestionID with
        | some stored => results.insert q.getQuestionID (q.checkAnswer stored)
        | none => results.insert q.getQuestionID false)
      acc).entries.Perm
      (acc.entries ++ qs.map (fun q => (q.questionID, answerMatches userAnswers q))) := by
  induction qs generalizing acc with
  | nil => simp
  | cons q rest ih =>
    rw [List.foldl_cons]
    simp only [List.map_cons, List.nodup_cons] at hnd
    have hq : q.questionID ∉ acc.entries.map Prod.fst := hacc q (List.mem_cons_self _ _)
    have hstep : (match userAnswers.find q.getQuestionID with
        | some stored => acc.insert q.getQuestionID (q.checkAnswer stored)
        | none => acc.insert q.getQuestionID false)
        = acc.insert q.questionID (answerMatches userAnswers q) := by
      unfold answerMatches Question.getQuestionID
      cases userAnswers.find q.questionID with
      | none => rfl
      | some stored => simp [Question.checkAnswer_eq]
    rw [hstep]
    have hacc2 : ∀ q2 ∈ rest, q2.questionID ∉
        (acc.insert q.questionID (answerMatches userAnswers q)).entries.map Prod.fst := by
      intro q2 hq2 hmem
      rw [StdMap.insert, StdMap.mem_keys_insertEntries] at hmem
      rcases hmem with h | h
      · exact hnd.1 (h ▸ List.mem_map_of_mem _ hq2)
      · exact hacc q2 (List.mem_cons_of_mem _ hq2) h
    refine (ih _ hnd.2 hacc2).trans ?_
    simp only [StdMap.insert, List.map_cons]
    exact ((StdMap.insertEntries_perm hq _).append_right _).trans List.perm_middle.symm

theorem Exam.checkAnswers_perm (e : Exam) (userAnswers : StdMap String)
    (hnd : (e.questions.map Question.questionID).Nodup) :
    (e.checkAnswers userAnswers).entries.Perm
      (e.questions.map (fun q => (q.questionID, answerMatches userAnswers q))) := by
  have h := Exam.foldl_check_perm userAnswers e.questions StdMap.empty hnd (by simp [StdMap.empty])
  simpa [Exam.checkAnswers, StdMap.empty] using h

theorem ExamGrader.foldl_count (l : List (Int × Bool)) (n : Int) :
    l.foldl (fun correctCount entry => if entry.2 then correctCount + 1 else correctCount) n
      = n + (l.countP (fun entry => entry.2) : Nat) := by
  induction l generalizing n with
  | nil => simp
  | cons e rest ih =>
    rw [List.foldl_cons, ih, List.countP_cons]
    cases e.2 <;> simp
    omega

theorem ExamGrader.correctCount_eq (results : StdMap Bool) :
    ExamGrader.correctCount results = (results.entries.countP (fun entry => entry.2) : Nat) := by
  simp [ExamGrader.correctCount, ExamGrader.foldl_count]

theorem ExamGrader.correctCount_nonneg (results : StdMap Bool) :
    0 ≤ ExamGrader.correctCount results := by
  rw [ExamGrader.correctCount_eq]; exact Int.natCast_nonneg _

theorem ExamGrader.correctCount_le (results : StdMap Bool) :
    ExamGrader.correctCount results ≤ ExamGrader.totalQuestions results := by
  rw [ExamGrader.correctCount_eq]
  simp only [ExamGrader.totalQuestions, StdMap.size]
  exact_mod_cast List.countP_le_length _

theorem ExamGrader.hasMCQ_iff (qs : List Question) :
    ExamGrader.hasMCQ qs = true ↔ ∃ q ∈ qs, q.isMCQ = true := by
  induction qs with
  | nil => simp [ExamGrader.hasMCQ]
  | cons q rest ih =>
    unfold ExamGrader.hasMCQ
    by_cases h : q.isMCQ = true
    · simp [h]
    · simp [h, ih]

theorem Exam.foldl_check_length (userAnswers : StdMap String) (qs : List Question)
    (acc : StdMap Bool) :
    acc.entries.length ≤ (qs.foldl
      (fun results q =>
        match userAnswers.find q.getQuestionID with
        | some stored => results.insert q.getQuestionID (q.checkAnswer stored)
        | none => results.insert q.getQuestionID false)
      acc).entries.length := by
  induction qs generalizing acc with
  | nil => simp
  | cons q rest ih =>
    rw [List.foldl_cons]
    refine le_trans ?_ (ih _)
    cases userAnswers.find q.getQuestionID <;>
      exact StdMap.length_le_length_insertEntries _ _ _

theorem Exam.checkAnswers_size_pos (e : Exam) (userAnswers : StdMap String)
    (h : e.questions ≠ []) : 1 ≤ ExamGrader.totalQuestions (e.checkAnswers userAnswers) := by
  unfold Exam.checkAnswers ExamGrader.totalQuestions StdMap.size
  cases hq : e.questions with
  | nil => exact absurd hq h
  | cons q rest =>
    rw [List.foldl_cons]
    have h1 := Exam.foldl_check_length userAnswers rest
      (match userAnswers.find q.getQuestionID with
        | some stored => StdMap.empty.insert q.getQuestionID (q.checkAnswer stored)
        | none => StdMap.empty.insert q.getQuestionID false)
    have h2 : 0 < (match userAnswers.find q.getQuestionID with
        | some stored => StdMap.empty.insert q.getQuestionID (q.checkAnswer stored)
        | none => StdMap.empty.insert q.getQuestionID false).entries.length := by
      cases userAnswers.find q.getQuestionID <;>
        exact StdMap.length_insertEntries_pos _ _ _
    omega

theorem ExamGrader.tdiv_percent_bounds (c t : Int) (h0 : 0 ≤ c) (h1 : c ≤ t) (ht : 0 < t) :
    0 ≤ Int.tdiv (c * 100) t ∧ Int.tdiv (c * 100) t ≤ 100 := by
  rw [Int.tdiv_eq_ediv (by positivity) (le_of_lt ht)]
  exact ⟨Int.ediv_nonneg (by positivity) (le_of_lt ht), Int.ediv_le_of_le_mul ht (by nlinarith)⟩

theorem ExamGrader.feedback_eq (userAnswers : StdMap String) (q : Question) :
    ExamGrader.feedback userAnswers q = expectedFeedback userAnswers q := by
  unfold ExamGrader.feedback expectedFeedback Question.getQuestionID Question.getCorrectAnswer
  cases userAnswers.find q.questionID with
  | none => rfl
  | some stored => simp [Question.checkAnswer_eq]

theorem ExamGrader.foldl_feedback_base (userAnswers : StdMap String) (qs : List Question)
    (d : DescriptiveResult) :
    (qs.foldl
      (fun (descResult : DescriptiveResult) q =>
        descResult.addQuestionFeedback q.getQuestionID (ExamGrader.feedback userAnswers q))
      d).toResult = d.toResult := by
  induction qs generalizing d with
  | nil => rfl
  | cons q rest ih => rw [List.foldl_cons, ih]; rfl

theorem ExamGrader.foldl_feedback_find_of_not_mem (userAnswers : StdMap String)
    (qs : List Question) (d : DescriptiveResult) (k : Int)
    (h : k ∉ qs.map Question.questionID) :
    (qs.foldl
      (fun (descResult : DescriptiveResult) q =>
        descResult.addQuestionFeedback q.getQuestionID (ExamGrader.feedback userAnswers q))
      d).detailedFeedback.find k = d.detailedFeedback.find k := by
  induction qs generalizing d with
  | nil => rfl
  | cons q rest ih =>
    simp only [List.map_cons, List.mem_cons, not_or] at h
    rw [List.foldl_cons, ih _ h.2]
    exact StdMap.findEntries_insertEntries_of_ne h.1 _ _

theorem ExamGrader.foldl_feedback_find_of_mem (userAnswers : StdMap String)
    (qs : List Question) (d : DescriptiveResult) (q : Question) (hq : q ∈ qs)
    (hnd : (qs.map Question.questionID).Nodup) :
    (qs.foldl
      (fun (descResult : DescriptiveResult) q =>
        descResult.addQuestionFeedback q.getQuestionID (ExamGrader.feedback userAnswers q))
      d).detailedFeedback.find q.questionID = some (ExamGrader.feedback userAnswers q) := by
  induction qs generalizing d with
  | nil => cases hq
  | cons q0 rest ih =>
    simp only [List.map_cons, List.nodup_cons] at hnd
    rw [List.foldl_cons]
    rcases List.mem_cons.1 hq with h | h
    · subst h
      rw [ExamGrader.foldl_feedback_find_of_not_mem _ _ _ _ hnd.1]
      exact StdMap.findEntries_insertEntries_self _ _ _
    · exact ih _ h hnd.2

theorem ExamGrader.buildResult_mcq (studentID examID : Int) (exam : Exam)
    (userAnswers : StdMap String) (h : ExamGrader.hasMCQ exam.questions = true) :
    ExamGrader.buildResult studentID examID exam exam.questions userAnswers
      = .ok (.mcq
          { studentID := studentID, examID := examID,
            score :=
              Int.tdiv (wrapInt32 (ExamGrader.correctCount (exam.checkAnswers userAnswers) * 100))
                (ExamGrader.totalQuestions (exam.checkAnswers userAnswers)),
            examType := "MCQ",
            correctAnswers := ExamGrader.correctCount (exam.checkAnswers userAnswers),
            totalQuestions := ExamGrader.totalQuestions (exam.checkAnswers userAnswers) }) := by
  have hne : exam.questions ≠ [] := by
    intro h0; rw [h0] at h; simp [ExamGrader.hasMCQ] at h
  have hpos := Exam.checkAnswers_size_pos exam userAnswers hne
  have hz : ExamGrader.totalQuestions (exam.checkAnswers userAnswers) ≠ 0 := by omega
  simp [ExamGrader.buildResult, h, MCQResult.new, hz]

theorem ExamGrader.buildResult_descriptive (studentID examID : Int) (exam : Exam)
    (userAnswers : StdMap String) (h : ExamGrader.hasMCQ exam.questions = false) :
    ExamGrader.buildResult studentID examID exam exam.questions userAnswers
      = .ok (.descriptive (exam.questions.foldl
          (fun (descResult : DescriptiveResult) q =>
            descResult.addQuestionFeedback q.getQuestionID (ExamGrader.feedback userAnswers q))
          (DescriptiveResult.new studentID examID
            (ExamGrader.percentScore (ExamGrader.correctCount (exam.checkAnswers userAnswers))
              (ExamGrader.totalQuestions (exam.checkAnswers userAnswers))) ""))) := by
  simp [ExamGrader.buildResult, h]

theorem ExamGrader.buildResult_ok (studentID examID : Int) (exam : Exam)
    (userAnswers : StdMap String) :
    ∃ r, ExamGrader.buildResult studentID examID exam exam.questions userAnswers = .ok r := by
  cases h : ExamGrader.hasMCQ exam.questions with
  | true => exact ⟨_, ExamGrader.buildResult_mcq _ _ _ _ h⟩
  | false => exact ⟨_, ExamGrader.buildResult_descriptive _ _ _ _ h⟩

theorem ExamGrader.gradeExamSession_eq (em : ExamManager) (fileOpens : Bool)
    (gs : GradingSystem) (s : ExamSession) (sheet : AnswerSheet) (exam : Exam) (r : ResultPtr)
    (hsheet : s.sheet = some sheet) (hexam : em.getExam s.examID = some exam)
    (hr : ExamGrader.buildResult s.studentID s.examID exam exam.questions sheet.answers = .ok r) :
    ExamGrader.gradeExamSession em fileOpens gs (some s)
      = (if fileOpens then .ok ()
          else .error (.gradingException "Failed to save result to file"), gs.gradeExam r) := by
  have hfind : em.container.find s.examID = some exam := hexam
  unfold ExamGrader.gradeExamSession
  simp only [ExamSession.getAnswerSheet, ExamSession.getExamID, ExamSession.getStudentID,
    AnswerSheet.getAllAnswers, hsheet, hexam, ExamManager.getExamQuestions, hfind,
    Exam.getQuestionsCopy_eq, hr]
  cases fileOpens <;> rfl

/-! ## Grading one session -/

/-- C1 (as stated, refuted): the exam `duplicateIdExam` has two questions that share the
question ID 1, with correct answers A and B, and the sheet stores A under ID 1. Grading succeeds
with `correctCount = 0` and `totalQuestions = 1`, while the exam has 2 questions of which 1 is
matched by the stored answer. -/
theorem gradeExamSession_counts_duplicate_ids :
    ExamGrader.gradeExamSession (sampleManager duplicateIdExam) true GradingSystem.new
        (some (sampleSession 7 1003 [(1, "A")]))
      = (.ok (), ⟨⟨[(7, [.mcq ⟨⟨7, 1003, 0, "MCQ"⟩, 0, 1⟩])]⟩, ⟨[]⟩⟩)
    ∧ ExamGrader.correctCount (duplicateIdExam.checkAnswers ⟨[(1, "A")]⟩) = 0
    ∧ duplicateIdExam.questions.countP (answerMatches ⟨[(1, "A")]⟩) = 1
    ∧ ExamGrader.totalQuestions (duplicateIdExam.checkAnswers ⟨[(1, "A")]⟩) = 1
    ∧ duplicateIdExam.questions.length = 2 := by
  refine ⟨rfl, rfl, rfl, rfl, rfl⟩

/-- C1 (amended): for every exam whose question IDs are pairwise distinct and every answer
sheet, grading a session with that sheet for that exam succeeds when the result file can be
written, and the `correctCount` it computes is the number of questions of the authoritative exam
whose stored answer equals the correct answer (an unanswered question does not match), and its
`totalQuestions` is the number of questions of the exam. -/
theorem gradeExamSession_counts (em : ExamManager) (gs : GradingSystem) (s : ExamSession)
    (sheet : AnswerSheet) (exam : Exam)
    (hsheet : s.sheet = some sheet) (hexam : em.getExam s.examID = some exam)
    (hnd : (exam.questions.map Question.questionID).Nodup) :
    (ExamGrader.gradeExamSession em true gs (some s)).1 = .ok ()
    ∧ ExamGrader.correctCount (exam.checkAnswers sheet.getAllAnswers)
        = (exam.questions.countP (answerMatches sheet.getAllAnswers) : Nat)
    ∧ ExamGrader.totalQuestions (exam.checkAnswers sheet.getAllAnswers)
        = (exam.questions.length : Nat) := by
  obtain ⟨r, hr⟩ := ExamGrader.buildResult_ok s.studentID s.examID exam sheet.answers
  have hperm := Exam.checkAnswers_perm exam sheet.getAllAnswers hnd
  refine ⟨?_, ?_, ?_⟩
  · rw [ExamGrader.gradeExamSession_eq em true gs s sheet exam r hsheet hexam hr]; rfl
  · rw [ExamGrader.correctCount_eq, hperm.countP_eq, List.countP_map]
    rfl
  · simp only [ExamGrader.totalQuestions, StdMap.size]
    rw [hperm.length_eq, List.length_map]

/-- Witness of C1 (amended): the exam with two multiple-choice questions, IDs 1 and 2, answered
A and C: one match out of two questions. -/
theorem gradeExamSession_counts_witness :
    (ExamGrader.gradeExamSession (sampleManager mcqExam) true GradingSystem.new
        (some (sampleSession 7 1000 [(1, "A"), (2, "C")]))).1 = .ok ()
    ∧ ExamGrader.correctCount (mcqExam.checkAnswers
        (⟨⟨[(1, "A"), (2, "C")]⟩, 7, 1000⟩ : AnswerSheet).getAllAnswers)
        = (mcqExam.questions.countP (answerMatches
            (⟨⟨[(1, "A"), (2, "C")]⟩, 7, 1000⟩ : AnswerSheet).getAllAnswers) : Nat)
    ∧ ExamGrader.totalQuestions (mcqExam.checkAnswers
        (⟨⟨[(1, "A"), (2, "C")]⟩, 7, 1000⟩ : AnswerSheet).getAllAnswers)
        = (mcqExam.questions.length : Nat) :=
  gradeExamSession_counts (sampleManager mcqExam) GradingSystem.new
    (sampleSession 7 1000 [(1, "A"), (2, "C")]) ⟨⟨[(1, "A"), (2, "C")]⟩, 7, 1000⟩ mcqExam
    rfl rfl (by decide)

/-- C2: for a session with an answer sheet whose exam is in the exam manager, the Result that
`gradeExamSession` adds to the grading system is an `MCQResult`, carrying the computed
`correctCount` and `totalQuestions`, if and only if at least one question of the exam is
multiple-choice, and a `DescriptiveResult` if and only if none is. -/
theorem gradeExamSession_variant (em : ExamManager) (fileOpens : Bool) (gs : GradingSystem)
    (s : ExamSession) (sheet : AnswerSheet) (exam : Exam)
    (hsheet : s.sheet = some sheet) (hexam : em.getExam s.examID = some exam) :
    ∃ r : ResultPtr,
      ExamGrader.gradeExamSession em fileOpens gs (some s)
        = (if fileOpens then .ok ()
            else .error (.gradingException "Failed to save result to file"), gs.gradeExam r)
      ∧ ((∃ q ∈ exam.questions, q.isMCQ = true) ↔
          ∃ m : MCQResult, r = .mcq m
            ∧ m.correctAnswers = ExamGrader.correctCount (exam.checkAnswers sheet.getAllAnswers)
            ∧ m.totalQuestions
                = ExamGrader.totalQuestions (exam.checkAnswers sheet.getAllAnswers))
      ∧ ((¬ ∃ q ∈ exam.questions, q.isMCQ = true) ↔ ∃ d : DescriptiveResult, r = .descriptive d) := by
  cases h : ExamGrader.hasMCQ exam.questions with
  | true =>
    have hex := (ExamGrader.hasMCQ_iff exam.questions).1 h
    refine ⟨_, ExamGrader.gradeExamSession_eq em fileOpens gs s sheet exam _ hsheet hexam
      (ExamGrader.buildResult_mcq _ _ _ _ h), ?_, ?_⟩
    · exact ⟨fun _ => ⟨_, rfl, rfl, rfl⟩, fun _ => hex⟩
    · constructor
      · intro hn; exact absurd hex hn
      · rintro ⟨d, hd⟩; cases hd
  | false =>
    have hex : ¬ ∃ q ∈ exam.questions, q.isMCQ = true := by
      intro hq
      rw [← ExamGrader.hasMCQ_iff, h] at hq
      cases hq
    refine ⟨_, ExamGrader.gradeExamSession_eq em fileOpens gs s sheet exam _ hsheet hexam
      (ExamGrader.buildResult_descriptive _ _ _ _ h), ?_, ?_⟩
    · constructor
      · intro hq; exact absurd hq hex
      · rintro ⟨m, hm, -⟩; cases hm
    · exact ⟨fun _ => ⟨_, rfl⟩, fun _ => hex⟩

/-- Witness of C2: a mixed exam, one descriptive question followed by one multiple-choice
question, is scored wholly as MCQ. -/
theorem gradeExamSession_variant_witness :
    (∃ r : ResultPtr,
      ExamGrader.gradeExamSession (sampleManager mixedExam) true GradingSystem.new
          (some (sampleSession 7 1002 [(1, "Rome")]))
        = (if true = true then .ok ()
            else .error (.gradingException "Failed to save result to file"),
            GradingSystem.new.gradeExam r)
      ∧ ((∃ q ∈ mixedExam.questions, q.isMCQ = true) ↔
          ∃ m : MCQResult, r = .mcq m
            ∧ m.correctAnswers = ExamGrader.correctCount (mixedExam.checkAnswers
                (⟨⟨[(1, "Rome")]⟩, 7, 1002⟩ : AnswerSheet).getAllAnswers)
            ∧ m.totalQuestions = ExamGrader.totalQuestions (mixedExam.checkAnswers
                (⟨⟨[(1, "Rome")]⟩, 7, 1002⟩ : AnswerSheet).getAllAnswers))
      ∧ ((¬ ∃ q ∈ mixedExam.questions, q.isMCQ = true) ↔
          ∃ d : DescriptiveResult, r = .descriptive d))
    ∧ ExamGrader.gradeExamSession (sampleManager mixedExam) true GradingSystem.new
          (some (sampleSession 7 1002 [(1, "Rome")]))
        = (.ok (), ⟨⟨[(7, [.mcq ⟨⟨7, 1002, 50, "MCQ"⟩, 1, 2⟩])]⟩, ⟨[]⟩⟩) :=
  ⟨gradeExamSession_variant (sampleManager mixedExam) true GradingSystem.new
    (sampleSession 7 1002 [(1, "Rome")]) ⟨⟨[(1, "Rome")]⟩, 7, 1002⟩ mixedExam rfl rfl, rfl⟩

theorem wrapInt32_of_range (x : Int) (h1 : -2147483648 ≤ x) (h2 : x < 2147483648) :
    wrapInt32 x = x := by
  unfold wrapInt32
  omega

/-- Where the product `correctCount * 100` fits in an `int`: for a session with an answer sheet
whose exam is in the exam manager and has `totalQuestions > 0`, the Result that
`gradeExamSession` adds, of either variant, has the score
`(correctCount * 100) / totalQuestions`, which lies in `[0, 100]`. -/
theorem ExamGrader.gradeExamSession_score_in_range (em : ExamManager) (fileOpens : Bool)
    (gs : GradingSystem) (s : ExamSession) (sheet : AnswerSheet) (exam : Exam)
    (hsheet : s.sheet = some sheet) (hexam : em.getExam s.examID = some exam)
    (hpos : 0 < ExamGrader.totalQuestions (exam.checkAnswers sheet.getAllAnswers))
    (hfits : ExamGrader.correctCount (exam.checkAnswers sheet.getAllAnswers) * 100
      < 2147483648) :
    ∃ r : ResultPtr,
      ExamGrader.gradeExamSession em fileOpens gs (some s)
        = (if fileOpens then .ok ()
            else .error (.gradingException "Failed to save result to file"), gs.gradeExam r)
      ∧ r.getScore
          = Int.tdiv (ExamGrader.correctCount (exam.checkAnswers sheet.getAllAnswers) * 100)
              (ExamGrader.totalQuestions (exam.checkAnswers sheet.getAllAnswers))
      ∧ 0 ≤ r.getScore ∧ r.getScore ≤ 100 := by
  have hnonneg := ExamGrader.correctCount_nonneg (exam.checkAnswers sheet.getAllAnswers)
  have hb := ExamGrader.tdiv_percent_bounds _ _ hnonneg
    (ExamGrader.correctCount_le (exam.checkAnswers sheet.getAllAnswers)) hpos
  have hwrap : wrapInt32 (ExamGrader.correctCount (exam.checkAnswers sheet.getAllAnswers) * 100)
      = ExamGrader.correctCount (exam.checkAnswers sheet.getAllAnswers) * 100 :=
    wrapInt32_of_range _ (by omega) hfits
  cases h : ExamGrader.hasMCQ exam.questions with
  | true =>
    refine ⟨_, ExamGrader.gradeExamSession_eq em fileOpens gs s sheet exam _ hsheet hexam
      (ExamGrader.buildResult_mcq _ _ _ _ h), ?_⟩
    have hscore : (ResultPtr.mcq
        { studentID := s.studentID, examID := s.examID,
          score :=
            Int.tdiv (wrapInt32 (ExamGrader.correctCount (exam.checkAnswers sheet.answers) * 100))
              (ExamGrader.totalQuestions (exam.checkAnswers sheet.answers)),
          examType := "MCQ",
          correctAnswers := ExamGrader.correctCount (exam.checkAnswers sheet.answers),
          totalQuestions := ExamGrader.totalQuestions (exam.checkAnswers sheet.answers) }).getScore
        = Int.tdiv (ExamGrader.correctCount (exam.checkAnswers sheet.getAllAnswers) * 100)
            (ExamGrader.totalQuestions (exam.checkAnswers sheet.getAllAnswers)) := by
      simp only [ResultPtr.getScore, ResultPtr.base, AnswerSheet.getAllAnswers]
      rw [show wrapInt32 (ExamGrader.correctCount (exam.checkAnswers sheet.answers) * 100)
        = ExamGrader.correctCount (exam.checkAnswers sheet.answers) * 100 from hwrap]
    rw [hscore]
    exact ⟨rfl, hb⟩
  | false =>
    refine ⟨_, ExamGrader.gradeExamSession_eq em fileOpens gs s sheet exam _ hsheet hexam
      (ExamGrader.buildResult_descriptive _ _ _ _ h), ?_⟩
    have hscore : (ResultPtr.descriptive (exam.questions.foldl
          (fun (descResult : DescriptiveResult) q =>
            descResult.addQuestionFeedback q.getQuestionID
              (ExamGrader.feedback sheet.answers q))
          (DescriptiveResult.new s.studentID s.examID
            (ExamGrader.percentScore (ExamGrader.correctCount (exam.checkAnswers sheet.answers))
              (ExamGrader.totalQuestions (exam.checkAnswers sheet.answers))) ""))).getScore
        = Int.tdiv (ExamGrader.correctCount (exam.checkAnswers sheet.getAllAnswers) * 100)
            (ExamGrader.totalQuestions (exam.checkAnswers sheet.getAllAnswers)) := by
      simp only [ResultPtr.getScore, ResultPtr.base, ExamGrader.foldl_feedback_base,
        DescriptiveResult.new, ExamGrader.percentScore, AnswerSheet.getAllAnswers]
      rw [if_pos (show ExamGrader.totalQuestions (exam.checkAnswers sheet.answers) > 0 from hpos)]
      rw [show wrapInt32 (ExamGrader.correctCount (exam.checkAnswers sheet.answers) * 100)
        = ExamGrader.correctCount (exam.checkAnswers sheet.answers) * 100 from hwrap]
    rw [hscore]
    exact ⟨rfl, hb⟩

theorem StdMap.findEntries_of_mem_const {α : Type} (k : Int) (v : α) (l : List (Int × α))
    (hmem : (k, v) ∈ l) (hconst : ∀ e ∈ l, e.2 = v) : StdMap.findEntries k l = some v := by
  induction l with
  | nil => cases hmem
  | cons e rest ih =>
    obtain ⟨k', v'⟩ := e
    unfold StdMap.findEntries
    by_cases hk : k = k'
    · have hv : v' = v := hconst (k', v') (List.mem_cons_self _ _)
      simp [hk, hv]
    · have hrest : (k, v) ∈ rest := by
        rcases List.mem_cons.1 hmem with h | h
        · exact absurd (congrArg Prod.fst h) hk
        · exact h
      simp [hk, ih hrest (fun e he => hconst e (List.mem_cons_of_mem _ he))]

theorem ExamGrader.numbered_counts (n : Nat) (hn : 0 < n) (exam : Exam)
    (hq : exam.questions = numberedQuestions n) :
    ExamGrader.hasMCQ exam.questions = true
    ∧ ExamGrader.correctCount (exam.checkAnswers ⟨numberedAnswers n⟩) = (n : Int)
    ∧ ExamGrader.totalQuestions (exam.checkAnswers ⟨numberedAnswers n⟩) = (n : Int) := by
  have hnd : (exam.questions.map Question.questionID).Nodup := by
    rw [hq, numberedQuestions, List.map_map]
    refine List.Nodup.map ?_ (List.nodup_range n)
    intro a b hab
    simpa using hab
  have hperm := Exam.checkAnswers_perm exam ⟨numberedAnswers n⟩ hnd
  have hall : ∀ q ∈ exam.questions, answerMatches ⟨numberedAnswers n⟩ q = true := by
    intro q hqmem
    rw [hq, numberedQuestions] at hqmem
    obtain ⟨i, hi, rfl⟩ := List.mem_map.1 hqmem
    have hmem : (((i : Int) + 1, "A") : Int × String) ∈ numberedAnswers n :=
      List.mem_map.2 ⟨i, hi, rfl⟩
    have hconst : ∀ e ∈ numberedAnswers n, e.2 = "A" := by
      intro e he
      obtain ⟨j, -, rfl⟩ := List.mem_map.1 he
      rfl
    have hfind := StdMap.findEntries_of_mem_const _ _ _ hmem hconst
    simp [answerMatches, StdMap.find, hfind]
  have hlen : exam.questions.length = n := by
    rw [hq, numberedQuestions, List.length_map, List.length_range]
  refine ⟨?_, ?_, ?_⟩
  · rw [ExamGrader.hasMCQ_iff, hq, numberedQuestions]
    exact ⟨_, List.mem_map.2 ⟨0, List.mem_range.2 hn, rfl⟩, rfl⟩
  · rw [ExamGrader.correctCount_eq, hperm.countP_eq, List.countP_map]
    have hcount : List.countP ((fun entry : Int × Bool => entry.2) ∘
        fun q => (q.questionID, answerMatches ⟨numberedAnswers n⟩ q)) exam.questions
        = exam.questions.length := by
      rw [List.countP_eq_length]
      intro q hqmem
      exact hall q hqmem
    rw [hcount, hlen]
  · simp only [ExamGrader.totalQuestions, StdMap.size]
    rw [hperm.length_eq, List.length_map, hlen]

/-- C3 (the code at the failing input): the exam `largeExam` has 30,000,000 multiple-choice
questions and the session answers every one of them correctly. Grading succeeds with
`correctCount = totalQuestions = 30000000`; the `int` product `correctCount * 100` is
3,000,000,000, which does not fit in 32 bits and is stored as -1,294,967,296, so the Result has
the score -43, outside `[0, 100]`, where the integer quotient `(correctCount * 100) /
totalQuestions` is 100. -/
theorem gradeExamSession_score_overflow :
    ExamGrader.gradeExamSession (sampleManager largeExam) true GradingSystem.new
        (some (sampleSession 7 2000 (numberedAnswers 30000000)))
      = (.ok (), GradingSystem.new.gradeExam (.mcq ⟨⟨7, 2000, -43, "MCQ"⟩, 30000000, 30000000⟩))
    ∧ wrapInt32 (30000000 * 100) = -1294967296
    ∧ Int.tdiv (30000000 * 100) 30000000 = 100 := by
  have hquestions : largeExam.questions = numberedQuestions 30000000 := by
    simp only [largeExam]
  have hsheet : (sampleSession 7 2000 (numberedAnswers 30000000)).sheet
      = some ⟨⟨numberedAnswers 30000000⟩, 7, 2000⟩ := by
    simp only [sampleSession]
  have hexam : (sampleManager largeExam).getExam
      (sampleSession 7 2000 (numberedAnswers 30000000)).examID = some largeExam := by
    simp [ExamManager.getExam, sampleManager, StdMap.find, StdMap.findEntries, sampleSession,
      largeExam]
  obtain ⟨hmcq, hcorrect, htotal⟩ :=
    ExamGrader.numbered_counts 30000000 (by norm_num) largeExam hquestions
  have hbuild := ExamGrader.buildResult_mcq 7 2000 largeExam ⟨numberedAnswers 30000000⟩ hmcq
  rw [hcorrect, htotal] at hbuild
  have hscore : Int.tdiv (wrapInt32 (((30000000 : Nat) : Int) * 100)) ((30000000 : Nat) : Int)
      = -43 := by decide
  rw [hscore] at hbuild
  refine ⟨?_, by decide, by decide⟩
  exact ExamGrader.gradeExamSession_eq (sampleManager largeExam) true GradingSystem.new
    (sampleSession 7 2000 (numberedAnswers 30000000)) ⟨⟨numberedAnswers 30000000⟩, 7, 2000⟩
    largeExam _ hsheet hexam hbuild

/-- C4: for a session with an answer sheet whose exam is in the exam manager, has only
descriptive questions and has pairwise distinct question IDs, the Result that `gradeExamSession`
adds is a `DescriptiveResult` whose feedback map has an entry for exactly the question IDs of
the exam; the entry of a question is "Correct answer. Full points awarded." when the stored answer
equals the correct answer, "Incorrect answer. Expected: " followed by the correct answer when an
answer is stored but differs, and "No answer provided." when no answer is stored. In the
scenario of two descriptive questions, the first answered correctly and the second unanswered,
the score is 50. -/
theorem gradeExamSession_descriptive_feedback :
    (∀ (em : ExamManager) (fileOpens : Bool) (gs : GradingSystem) (s : ExamSession)
      (sheet : AnswerSheet) (exam : Exam),
      s.sheet = some sheet → em.getExam s.examID = some exam →
      (∀ q ∈ exam.questions, q.kind = .Descriptive) →
      (exam.questions.map Question.questionID).Nodup →
      ∃ d : DescriptiveResult,
        ExamGrader.gradeExamSession em fileOpens gs (some s)
          = (if fileOpens then .ok ()
              else .error (.gradingException "Failed to save result to file"),
              gs.gradeExam (.descriptive d))
        ∧ (∀ q ∈ exam.questions,
            d.getDetailedFeedback.find q.questionID
              = some (expectedFeedback sheet.getAllAnswers q))
        ∧ (∀ k : Int, k ∉ exam.questions.map Question.questionID →
            d.getDetailedFeedback.find k = none))
    ∧ ExamGrader.gradeExamSession (sampleManager descriptiveExam) true GradingSystem.new
          (some (sampleSession 7 1001 [(1, "Rome")]))
        = (.ok (), ⟨⟨[(7, [.descriptive ⟨⟨7, 1001, 50, "Descriptive"⟩, "",
            ⟨[(1, "Correct answer. Full points awarded."), (2, "No answer provided.")]⟩⟩])]⟩,
            ⟨[]⟩⟩) := by
  refine ⟨?_, rfl⟩
  intro em fileOpens gs s sheet exam hsheet hexam hdesc hnd
  have h : ExamGrader.hasMCQ exam.questions = false := by
    cases hm : ExamGrader.hasMCQ exam.questions with
    | false => rfl
    | true =>
      obtain ⟨q, hq, hmcq⟩ := (ExamGrader.hasMCQ_iff exam.questions).1 hm
      simp [Question.isMCQ, hdesc q hq] at hmcq
  refine ⟨_, ExamGrader.gradeExamSession_eq em fileOpens gs s sheet exam _ hsheet hexam
    (ExamGrader.buildResult_descriptive _ _ _ _ h), ?_, ?_⟩
  · intro q hq
    rw [← ExamGrader.feedback_eq]
    exact ExamGrader.foldl_feedback_find_of_mem _ _ _ q hq hnd
  · intro k hk
    simp only [DescriptiveResult.getDetailedFeedback]
    rw [ExamGrader.foldl_feedback_find_of_not_mem _ _ _ k hk]
    rfl

/-- Witness of C4: the scenario of two descriptive questions, the first answered correctly and
the second unanswered. -/
theorem gradeExamSession_descriptive_feedback_witness :
    ∃ d : DescriptiveResult,
      ExamGrader.gradeExamSession (sampleManager descriptiveExam) true GradingSystem.new
          (some (sampleSession 7 1001 [(1, "Rome")]))
        = (if true = true then .ok ()
            else .error (.gradingException "Failed to save result to file"),
            GradingSystem.new.gradeExam (.descriptive d))
      ∧ (∀ q ∈ descriptiveExam.questions,
          d.getDetailedFeedback.find q.questionID
            = some (expectedFeedback
                (⟨⟨[(1, "Rome")]⟩, 7, 1001⟩ : AnswerSheet).getAllAnswers q))
      ∧ (∀ k : Int, k ∉ descriptiveExam.questions.map Question.questionID →
          d.getDetailedFeedback.find k = none) :=
  gradeExamSession_descriptive_feedback.1 (sampleManager descriptiveExam) true GradingSystem.new
    (sampleSession 7 1001 [(1, "Rome")]) ⟨⟨[(1, "Rome")]⟩, 7, 1001⟩ descriptiveExam
    rfl rfl (by decide) (by decide)

/-- C5: `gradeExamSession` never divides by zero, for any exam manager, grading system and
session; grading a session whose exam has no question adds a Result with score 0, the computed
`totalQuestions` being 0; and the `MCQResult` constructor, which divides by `totalQuestions`, is
reached (the question copy holds a multiple-choice question) only when `totalQuestions ≥ 1`. -/
theorem gradeExamSession_no_division_by_zero :
    (∀ (em : ExamManager) (fileOpens : Bool) (gs : GradingSystem) (session : Option ExamSession),
      (ExamGrader.gradeExamSession em fileOpens gs session).1 ≠ .error .divisionByZero)
    ∧ (∀ (em : ExamManager) (fileOpens : Bool) (gs : GradingSystem) (s : ExamSession)
        (sheet : AnswerSheet) (exam : Exam),
        s.sheet = some sheet → em.getExam s.examID = some exam → exam.questions = [] →
        ∃ r : ResultPtr,
          ExamGrader.gradeExamSession em fileOpens gs (some s)
            = (if fileOpens then .ok ()
                else .error (.gradingException "Failed to save result to file"),
                gs.gradeExam r)
          ∧ r.getScore = 0
          ∧ ExamGrader.totalQuestions (exam.checkAnswers sheet.getAllAnswers) = 0)
    ∧ (∀ (exam : Exam) (userAnswers : StdMap String),
        ExamGrader.hasMCQ exam.getQuestionsCopy = true →
        1 ≤ ExamGrader.totalQuestions (exam.checkAnswers userAnswers)) := by
  refine ⟨?_, ?_, ?_⟩
  · intro em fileOpens gs session
    cases session with
    | none => simp [ExamGrader.gradeExamSession]
    | some s =>
      cases hsheet : s.sheet with
      | none => simp [ExamGrader.gradeExamSession, ExamSession.getAnswerSheet, hsheet]
      | some sheet =>
        cases hexam : em.getExam s.examID with
        | none =>
          simp [ExamGrader.gradeExamSession, ExamSession.getAnswerSheet, hsheet,
            ExamSession.getExamID, hexam]
        | some exam =>
          obtain ⟨r, hr⟩ := ExamGrader.buildResult_ok s.studentID s.examID exam sheet.answers
          rw [ExamGrader.gradeExamSession_eq em fileOpens gs s sheet exam r hsheet hexam hr]
          cases fileOpens <;> simp
  · intro em fileOpens gs s sheet exam hsheet hexam hempty
    have h : ExamGrader.hasMCQ exam.questions = false := by rw [hempty]; rfl
    refine ⟨_, ExamGrader.gradeExamSession_eq em fileOpens gs s sheet exam _ hsheet hexam
      (ExamGrader.buildResult_descriptive _ _ _ _ h), ?_, ?_⟩
    · simp [ResultPtr.getScore, ResultPtr.base, ExamGrader.foldl_feedback_base,
        DescriptiveResult.new, ExamGrader.percentScore, Exam.checkAnswers, hempty,
        ExamGrader.totalQuestions, StdMap.size, StdMap.empty]
    · simp [Exam.checkAnswers, hempty, ExamGrader.totalQuestions, StdMap.size, StdMap.empty]
  · intro exam userAnswers h
    rw [Exam.getQuestionsCopy_eq] at h
    refine Exam.checkAnswers_size_pos exam userAnswers ?_
    intro h0; rw [h0] at h; simp [ExamGrader.hasMCQ] at h

/-- Witness of C5: grading a session of the exam without questions. -/
theorem gradeExamSession_no_division_by_zero_witness :
    (∃ r : ResultPtr,
      ExamGrader.gradeExamSession (sampleManager emptyExam) true GradingSystem.new
          (some (sampleSession 7 1004 [(1, "A")]))
        = (if true = true then .ok ()
            else .error (.gradingException "Failed to save result to file"),
            GradingSystem.new.gradeExam r)
      ∧ r.getScore = 0
      ∧ ExamGrader.totalQuestions (emptyExam.checkAnswers
          (⟨⟨[(1, "A")]⟩, 7, 1004⟩ : AnswerSheet).getAllAnswers) = 0)
    ∧ 1 ≤ ExamGrader.totalQuestions (mixedExam.checkAnswers ⟨[(1, "Rome")]⟩) :=
  ⟨gradeExamSession_no_division_by_zero.2.1 (sampleManager emptyExam) true GradingSystem.new
    (sampleSession 7 1004 [(1, "A")]) ⟨⟨[(1, "A")]⟩, 7, 1004⟩ emptyExam rfl rfl rfl,
   gradeExamSession_no_division_by_zero.2.2 mixedExam ⟨[(1, "Rome")]⟩ rfl⟩

/-- C6: `gradeExamSession` fails with a `GradingException` when the session is null, when the
session has no answer sheet, and when the session's exam ID is not in the exam manager; in each
case the grading system, that is the result store and every report card, is left as it was. -/
theorem gradeExamSession_failures (em : ExamManager) (fileOpens : Bool) (gs : GradingSystem) :
    ExamGrader.gradeExamSession em fileOpens gs none
      = (.error (.gradingException "Invalid exam session provided for grading"), gs)
    ∧ (∀ s : ExamSession, s.sheet = none →
        ExamGrader.gradeExamSession em fileOpens gs (some s)
          = (.error (.gradingException "No answer sheet found in session"), gs))
    ∧ (∀ s : ExamSession, em.container.find s.examID = none →
        ∃ message : String,
          ExamGrader.gradeExamSession em fileOpens gs (some s)
            = (.error (.gradingException message), gs)) := by
  refine ⟨rfl, ?_, ?_⟩
  · intro s hsheet
    simp [ExamGrader.gradeExamSession, ExamSession.getAnswerSheet, hsheet]
  · intro s hexam
    cases hsheet : s.sheet with
    | none =>
      exact ⟨"No answer sheet found in session",
        by simp [ExamGrader.gradeExamSession, ExamSession.getAnswerSheet, hsheet]⟩
    | some sheet =>
      exact ⟨"Exam not found for grading",
        by simp [ExamGrader.gradeExamSession, ExamSession.getAnswerSheet, hsheet,
          ExamSession.getExamID, ExamManager.getExam, hexam]⟩

/-- Witness of C6: a session without answer sheet, and a session for an exam ID that the exam
manager does not hold. -/
theorem gradeExamSession_failures_witness :
    ExamGrader.gradeExamSession (sampleManager mcqExam) true GradingSystem.new
        (some ⟨7, 1000, none, none, [], true⟩)
      = (.error (.gradingException "No answer sheet found in session"), GradingSystem.new)
    ∧ ∃ message : String,
        ExamGrader.gradeExamSession (sampleManager mcqExam) true GradingSystem.new
            (some (sampleSession 7 4242 [(1, "A")]))
          = (.error (.gradingException message), GradingSystem.new) :=
  ⟨(gradeExamSession_failures (sampleManager mcqExam) true GradingSystem.new).2.1
      ⟨7, 1000, none, none, [], true⟩ rfl,
   (gradeExamSession_failures (sampleManager mcqExam) true GradingSystem.new).2.2
      (sampleSession 7 4242 [(1, "A")]) rfl⟩

/-! ## Scores -/

/-- C7: for every `s` with `0 ≤ s ≤ 100`, `Result::updateScore(s)` succeeds and `getScore()`
afterwards returns `s`; for every `s < 0` or `s > 100` it fails with a `GradingException` and the
Result, its stored score included, is unchanged. -/
theorem updateScore_range (r : Result) (s : Int) :
    (0 ≤ s ∧ s ≤ 100 → (r.updateScore s).1 = .ok () ∧ (r.updateScore s).2.getScore = s)
    ∧ (s < 0 ∨ 100 < s →
        (r.updateScore s).1 = .error (.gradingException "Invalid score value")
        ∧ (r.updateScore s).2 = r ∧ (r.updateScore s).2.getScore = r.getScore) := by
  unfold Result.updateScore
  constructor
  · rintro ⟨h0, h1⟩
    have : ¬ (s < 0 ∨ 100 < s) := by omega
    simp [this, Result.getScore]
  · intro h
    simp [h]

/-- Witness of C7: the scores 50 and 101 on a Result holding 70. -/
theorem updateScore_range_witness :
    ((Result.updateScore ⟨7, 1000, 70, "MCQ"⟩ 50).1 = .ok ()
      ∧ (Result.updateScore ⟨7, 1000, 70, "MCQ"⟩ 50).2.getScore = 50)
    ∧ ((Result.updateScore ⟨7, 1000, 70, "MCQ"⟩ 101).1
          = .error (.gradingException "Invalid score value")
      ∧ (Result.updateScore ⟨7, 1000, 70, "MCQ"⟩ 101).2 = ⟨7, 1000, 70, "MCQ"⟩
      ∧ (Result.updateScore ⟨7, 1000, 70, "MCQ"⟩ 101).2.getScore
          = (⟨7, 1000, 70, "MCQ"⟩ : Result).getScore) :=
  ⟨(updateScore_range ⟨7, 1000, 70, "MCQ"⟩ 50).1 ⟨by decide, by decide⟩,
   (updateScore_range ⟨7, 1000, 70, "MCQ"⟩ 101).2 (Or.inr (by decide))⟩

/-! ## The timer -/

/-- C8 (as stated, refuted): with nanosecond ticks, a timer started at instant 0 for 10 minutes
has 10 minutes remaining at instant 0; once `pauseTimer` is called at that instant,
`getRemainingTime` returns 0, not the 10 minutes it had at the pause. -/
theorem getRemainingTime_paused_not_frozen :
    Timer.getRemainingTime 60000000000 (Timer.new.startTimer 0 10) 0 = 10
    ∧ ((Timer.new.startTimer 0 10).pauseTimer 0).isRunning = false
    ∧ Timer.getRemainingTime 60000000000 ((Timer.new.startTimer 0 10).pauseTimer 0) 0 = 0 := by
  refine ⟨by decide, rfl, by decide⟩

/-- C8 (amended): when the timer is not running, `Timer::getRemainingTime` returns 0 at every
instant, whatever the remaining value was at the last pause. -/
theorem getRemainingTime_not_running (ticksPerMinute : Int) (t : Timer) (now : Int)
    (h : t.isRunning = false) : Timer.getRemainingTime ticksPerMinute t now = 0 := by
  simp [Timer.getRemainingTime, h]

/-- Witness of C8 (amended): the timer started for 10 minutes and paused at once, read one
minute later. -/
theorem getRemainingTime_not_running_witness :
    Timer.getRemainingTime 60000000000 ((Timer.new.startTimer 0 10).pauseTimer 0) 60000000000
      = 0 :=
  getRemainingTime_not_running 60000000000 ((Timer.new.startTimer 0 10).pauseTimer 0)
    60000000000 rfl

theorem Timer.remaining_nonneg (ticksPerMinute : Int) (t : Timer) (now : Int) :
    0 ≤ Timer.getRemainingTime ticksPerMinute t now := by
  unfold Timer.getRemainingTime
  cases t.isRunning
  · simp
  · simp only [Bool.not_true, Bool.false_eq_true, if_false]
    split_ifs with h
    · exact le_of_lt h
    · exact le_refl 0

/-- Where the difference of the minute counts fits in an `int`: while the timer runs,
`getRemainingTime` is `max(0, duration - elapsed)`, with `elapsed` the number of whole minutes
from the baseline `startTime` to the instant of the call. -/
theorem Timer.remaining_eq_max_of_fits (ticksPerMinute : Int) (t : Timer) (now : Int)
    (hrun : t.isRunning = true)
    (hlow : -2147483648 ≤ t.duration - Int.tdiv (now - t.startTime) ticksPerMinute)
    (hhigh : t.duration - Int.tdiv (now - t.startTime) ticksPerMinute < 2147483648) :
    Timer.getRemainingTime ticksPerMinute t now
      = max 0 (t.duration - Int.tdiv (now - t.startTime) ticksPerMinute) := by
  unfold Timer.getRemainingTime
  simp only [hrun, Bool.not_true, Bool.false_eq_true, if_false,
    wrapInt32_of_range _ hlow hhigh]
  split_ifs with h
  · exact (max_eq_right (le_of_lt h)).symm
  · exact (max_eq_left (not_lt.1 h)).symm

/-- C9 (the code at the failing input): with nanosecond ticks, a timer started at instant 0
with the duration -2147483648 runs, and one minute later the difference
`duration - elapsed = -2147483649` does not fit in the `int` variable `remaining`, which holds
2147483647: `getRemainingTime` returns 2147483647, where `max(0, duration - elapsed)` is 0. -/
theorem getRemainingTime_narrowing_overflow :
    (Timer.new.startTimer 0 (-2147483648)).isRunning = true
    ∧ (Timer.new.startTimer 0 (-2147483648)).duration
        - Int.tdiv (60000000000 - (Timer.new.startTimer 0 (-2147483648)).startTime) 60000000000
      = -2147483649
    ∧ Timer.getRemainingTime 60000000000 (Timer.new.startTimer 0 (-2147483648)) 60000000000
      = 2147483647
    ∧ max 0 ((Timer.new.startTimer 0 (-2147483648)).duration
        - Int.tdiv (60000000000 - (Timer.new.startTimer 0 (-2147483648)).startTime) 60000000000)
      = 0 := by
  refine ⟨rfl, by decide, by decide, by decide⟩

/-- C10: for a running timer paused at instant `p` and resumed at an instant `r ≥ p`,
`getRemainingTime` read at `r` right after `resumeTimer` equals `getRemainingTime` read at `p`
right before `pauseTimer`; the resume moves the baseline `startTime` forward by exactly
`r - p` and the timer runs again. -/
theorem getRemainingTime_pause_resume (ticksPerMinute : Int) (t : Timer) (p r : Int)
    (hrun : t.isRunning = true) (_hpr : p ≤ r) :
    Timer.getRemainingTime ticksPerMinute ((t.pauseTimer p).resumeTimer r) r
      = Timer.getRemainingTime ticksPerMinute t p
    ∧ ((t.pauseTimer p).resumeTimer r).startTime = t.startTime + (r - p)
    ∧ ((t.pauseTimer p).resumeTimer r).isRunning = true := by
  have hshift : r - (t.startTime + (r - p)) = p - t.startTime := by omega
  simp [Timer.getRemainingTime, Timer.pauseTimer, Timer.resumeTimer, hrun, hshift]

/-- Witness of C10: a 10 minute timer started at instant 0, paused after 2.5 minutes and
resumed at 7 minutes: 8 minutes remain before the pause and after the resume. -/
theorem getRemainingTime_pause_resume_witness :
    (Timer.getRemainingTime 60000000000
        (((Timer.new.startTimer 0 10).pauseTimer 150000000000).resumeTimer 420000000000)
        420000000000
      = Timer.getRemainingTime 60000000000 (Timer.new.startTimer 0 10) 150000000000
    ∧ (((Timer.new.startTimer 0 10).pauseTimer 150000000000).resumeTimer 420000000000).startTime
      = (Timer.new.startTimer 0 10).startTime + (420000000000 - 150000000000)
    ∧ (((Timer.new.startTimer 0 10).pauseTimer 150000000000).resumeTimer
        420000000000).isRunning = true)
    ∧ Timer.getRemainingTime 60000000000 (Timer.new.startTimer 0 10) 150000000000 = 8 :=
  ⟨getRemainingTime_pause_resume 60000000000 (Timer.new.startTimer 0 10) 150000000000
    420000000000 rfl (by decide), by decide⟩

/-! ## Facts about the timer and sessions -/

theorem Timer.tdiv_mono (a b c : Int) (hc : 0 < c) (h : a ≤ b) : Int.tdiv a c ≤ Int.tdiv b c := by
  rcases le_or_lt 0 a with ha | ha
  · rw [Int.tdiv_eq_ediv ha hc.le, Int.tdiv_eq_ediv (ha.trans h) hc.le]
    exact Int.ediv_le_ediv hc h
  · have h1 : Int.tdiv a c = -((-a) / c) := by
      rw [← Int.tdiv_eq_ediv (by omega) hc.le, Int.neg_tdiv, neg_neg]
    rcases le_or_lt 0 b with hb | hb
    · have h2 : 0 ≤ Int.tdiv b c := Int.tdiv_nonneg hb hc.le
      have h3 : 0 ≤ (-a) / c := Int.ediv_nonneg (by omega) hc.le
      omega
    · have h2 : Int.tdiv b c = -((-b) / c) := by
        rw [← Int.tdiv_eq_ediv (by omega) hc.le, Int.neg_tdiv, neg_neg]
      have h3 := Int.ediv_le_ediv hc (show -b ≤ -a by omega)
      omega

theorem ExamSession.startExam_of_bound (s : ExamSession) (em : ExamManager) (now sid eid : Int)
    (h : s.studentID ≠ 0 ∨ s.examID ≠ 0) : s.startExam em now sid eid = (.ok (), s) := by
  unfold ExamSession.startExam
  have hc : (s.studentID == 0 && s.examID == 0) = false := by
    rcases h with h | h <;> simp [h]
  simp [hc]

theorem ExamSession.startExam_ids (s : ExamSession) (em : ExamManager) (now sid eid : Int)
    (h : sid ≠ 0 ∨ eid ≠ 0) :
    (s.startExam em now sid eid).2.studentID ≠ 0 ∨ (s.startExam em now sid eid).2.examID ≠ 0 := by
  by_cases hb : s.studentID ≠ 0 ∨ s.examID ≠ 0
  · rw [ExamSession.startExam_of_bound s em now sid eid hb]; exact hb
  · have h0 : s.studentID = 0 ∧ s.examID = 0 := by
      constructor
      · by_contra hne; exact hb (Or.inl hne)
      · by_contra hne; exact hb (Or.inr hne)
    unfold ExamSession.startExam
    simp only [h0.1, h0.2, beq_self_eq_true, Bool.and_self, if_true]
    cases em.getExamDuration eid with
    | error e => exact h
    | ok duration =>
      cases em.getExamQuestions eid with
      | error e => exact h
      | ok questions => exact h

/-! ## The timer while it runs -/

/-- Where the differences of the minute counts fit in an `int`: for a running timer that no
`startTimer`, `pauseTimer` or `resumeTimer` call touches, and a positive number of clock ticks
in a minute, `getRemainingTime` does not increase from an instant `t1` to a later instant
`t2`. -/
theorem Timer.remaining_antitone_of_fits (ticksPerMinute : Int) (t : Timer) (t1 t2 : Int)
    (hticks : 0 < ticksPerMinute) (hrun : t.isRunning = true) (h : t1 ≤ t2)
    (hlow : -2147483648 ≤ t.duration - Int.tdiv (t2 - t.startTime) ticksPerMinute)
    (hhigh : t.duration - Int.tdiv (t1 - t.startTime) ticksPerMinute < 2147483648) :
    Timer.getRemainingTime ticksPerMinute t t2 ≤ Timer.getRemainingTime ticksPerMinute t t1 := by
  have hmono := Timer.tdiv_mono (t1 - t.startTime) (t2 - t.startTime) ticksPerMinute hticks
    (by omega)
  rw [Timer.remaining_eq_max_of_fits ticksPerMinute t t2 hrun hlow (by omega),
    Timer.remaining_eq_max_of_fits ticksPerMinute t t1 hrun (by omega) hhigh]
  exact max_le_max (le_refl 0) (by omega)

/-- C11 (the code at the failing input): with nanosecond ticks, the timer started at instant 0
with the duration -2147483648 runs untouched; `getRemainingTime` returns 0 at instant 0 and
2147483647 one minute later, so the remaining time rises with time. -/
theorem getRemainingTime_rises_with_time :
    (Timer.new.startTimer 0 (-2147483648)).isRunning = true
    ∧ Timer.getRemainingTime 60000000000 (Timer.new.startTimer 0 (-2147483648)) 0 = 0
    ∧ Timer.getRemainingTime 60000000000 (Timer.new.startTimer 0 (-2147483648)) 60000000000
      = 2147483647 := by
  refine ⟨rfl, by decide, by decide⟩

/-! ## The session -/

/-- C12: once the `finished` flag of a session is true, `submitAnswer(questionID, text)` is
rejected for every question ID and text: the call returns, without throwing, and the session,
its answer sheet and every other field, is unchanged. -/
theorem submitAnswer_finished (s : ExamSession) (questionID : Int) (text : String)
    (h : s.isFinished = true) : s.submitAnswer questionID text = s := by
  simp [ExamSession.submitAnswer, h]

/-- Witness of C12: a finished session holding the answer A to question 1. -/
theorem submitAnswer_finished_witness :
    ({ sampleSession 7 1000 [(1, "A")] with isFinished := true } : ExamSession).submitAnswer 2 "B"
      = { sampleSession 7 1000 [(1, "A")] with isFinished := true } :=
  submitAnswer_finished { sampleSession 7 1000 [(1, "A")] with isFinished := true } 2 "B" rfl

/-- C13: `finishExam` is idempotent. The first call on an unfinished session sets
`finished = true`, pauses the timer at the instant of the call and saves the session as it then
is. A second call, at any instant and on any file system, changes neither the session (it stays
finished and its timer is not touched) nor any file, so the state after two calls is the state
after one. -/
theorem finishExam_idempotent (s : ExamSession) (now1 now2 : Int) (fileOpens1 fileOpens2 : Bool)
    (fs : FileSystem) (h : s.isFinished = false) :
    (s.finishExam now1 fileOpens1 fs).1.isFinished = true
    ∧ (s.finishExam now1 fileOpens1 fs).1.timer = s.timer.map (fun timer => timer.pauseTimer now1)
    ∧ (s.finishExam now1 fileOpens1 fs).2
        = (s.finishExam now1 fileOpens1 fs).1.saveSessionToFile fileOpens1 fs
    ∧ (∀ fs2 : FileSystem,
        (s.finishExam now1 fileOpens1 fs).1.finishExam now2 fileOpens2 fs2
          = ((s.finishExam now1 fileOpens1 fs).1, fs2))
    ∧ (s.finishExam now1 fileOpens1 fs).1.finishExam now2 fileOpens2
          (s.finishExam now1 fileOpens1 fs).2
        = s.finishExam now1 fileOpens1 fs := by
  have hfirst : s.finishExam now1 fileOpens1 fs
      = ({ s with isFinished := true,
                  timer := s.timer.map (fun timer => timer.pauseTimer now1) },
         ({ s with isFinished := true,
                   timer := s.timer.map (fun timer => timer.pauseTimer now1) }
            : ExamSession).saveSessionToFile fileOpens1 fs) := by
    unfold ExamSession.finishExam
    cases ht : s.timer <;> simp [h]
  rw [hfirst]
  refine ⟨rfl, rfl, rfl, ?_, ?_⟩
  · intro fs2
    simp [ExamSession.finishExam]
  · simp [ExamSession.finishExam]

/-- Witness of C13: a session finished at instant 50 and again at instant 90. -/
theorem finishExam_idempotent_witness :
    ((sampleSession 7 1000 [(1, "A")]).finishExam 50 true ⟨[]⟩).1.finishExam 90 true
        ((sampleSession 7 1000 [(1, "A")]).finishExam 50 true ⟨[]⟩).2
      = (sampleSession 7 1000 [(1, "A")]).finishExam 50 true ⟨[]⟩ :=
  (finishExam_idempotent (sampleSession 7 1000 [(1, "A")]) 50 90 true true ⟨[]⟩ rfl).2.2.2.2

/-- C14 (as stated, refuted): with exam 0 in the exam manager, `startExam(0, 0)` on a fresh
session at instant 100 binds the identity `(0, 0)` and starts the timer; a further
`startExam(5, 1000)` at instant 200 is no no-op: it rebinds the session to student 5 and exam
1000, loads the questions of exam 1000 and restarts the timer. -/
theorem startExam_rebinds_zero_identity :
    ExamSession.new.startExam zeroManager 100 0 0
      = (.ok (), ⟨0, 0, some ⟨⟨[]⟩, 0, 0⟩, some ⟨100, 0, 30, true⟩, [], false⟩)
    ∧ (ExamSession.new.startExam zeroManager 100 0 0).2.startExam zeroManager 200 5 1000
      = (.ok (), ⟨5, 1000, some ⟨⟨[]⟩, 0, 0⟩, some ⟨200, 0, 30, true⟩, mcqExam.questions,
          false⟩) := by
  exact ⟨rfl, rfl⟩

/-- C14 (amended): `startExam` binds the identity at most once when the identity is not
`(0, 0)`: for every session, after a call `startExam(sid, eid)` with `sid` and `eid` not both 0,
whether that call bound the identity, found it bound or threw for a missing exam, a further
`startExam(sid', eid')` returns without changing the session: student ID, exam ID, question
snapshot, answer sheet and timer are as they were. -/
theorem startExam_binds_once (s : ExamSession) (em : ExamManager)
    (now now' sid eid sid' eid' : Int) (h : sid ≠ 0 ∨ eid ≠ 0) :
    (s.startExam em now sid eid).2.startExam em now' sid' eid'
      = (.ok (), (s.startExam em now sid eid).2) :=
  ExamSession.startExam_of_bound _ em now' sid' eid' (ExamSession.startExam_ids s em now sid eid h)

/-- Witness of C14 (amended): a fresh session started for student 7 and exam 1000, then started
again for student 5 and exam 0. -/
theorem startExam_binds_once_witness :
    (ExamSession.new.startExam zeroManager 100 7 1000).2.startExam zeroManager 200 5 0
      = (.ok (), (ExamSession.new.startExam zeroManager 100 7 1000).2) :=
  startExam_binds_once ExamSession.new zeroManager 100 200 7 1000 5 0 (Or.inl (by decide))

/-! ## The session registry -/

theorem SessionManager.startExam_newFor (em : ExamManager) (now sid eid : Int)
    (h : sid ≠ 0 ∨ eid ≠ 0 ∨ em.getExam eid ≠ none) :
    ∃ started : ExamSession,
      (ExamSession.newFor em sid eid).startExam em now sid eid = (.ok (), started)
      ∧ SessionManager.hasKey sid eid started = true := by
  by_cases hb : sid ≠ 0 ∨ eid ≠ 0
  · refine ⟨ExamSession.newFor em sid eid,
      ExamSession.startExam_of_bound _ em now sid eid hb, ?_⟩
    simp [SessionManager.hasKey, ExamSession.getStudentID, ExamSession.getExamID,
      ExamSession.newFor]
  · have h0 : sid = 0 ∧ eid = 0 := by
      constructor
      · by_contra hne; exact hb (Or.inl hne)
      · by_contra hne; exact hb (Or.inr hne)
    have hex : em.getExam eid ≠ none := by
      rcases h with h | h | h
      · exact absurd h0.1 h
      · exact absurd h0.2 h
      · exact h
    obtain ⟨exam, hexam⟩ := Option.ne_none_iff_exists'.1 hex
    have hfind : em.container.find eid = some exam := hexam
    obtain ⟨hs, he⟩ := h0
    subst hs
    subst he
    have hval : (ExamSession.newFor em 0 0).startExam em now 0 0
        = (.ok (), ((ExamSession.newFor em 0 0).startExam em now 0 0).2) := by
      unfold ExamSession.startExam
      simp [ExamSession.newFor, ExamManager.getExamDuration, ExamManager.getExamQuestions, hfind]
    have hkey : SessionManager.hasKey 0 0 ((ExamSession.newFor em 0 0).startExam em now 0 0).2
        = true := by
      unfold ExamSession.startExam
      simp [ExamSession.newFor, ExamManager.getExamDuration, ExamManager.getExamQuestions, hfind,
        SessionManager.hasKey, ExamSession.getStudentID, ExamSession.getExamID]
    exact ⟨_, hval, hkey⟩

/-- C15 (as stated, refuted): with no exam 0 in the exam manager, `startSession(0, 0)` on the
empty registry throws `std::out_of_range` out of `startExam` before the session is stored, and
so does a second call: after two calls the registry holds no session with the key, not one. -/
theorem startSession_zero_key_no_session :
    (SessionManager.mk []).startSession (sampleManager mcqExam) 100 0 0
      = (.error .outOfRange, ⟨[]⟩)
    ∧ ((SessionManager.mk []).startSession (sampleManager mcqExam) 100 0 0).2.startSession
        (sampleManager mcqExam) 200 0 0
      = (.error .outOfRange, ⟨[]⟩) := by
  exact ⟨rfl, rfl⟩

/-- C15 (amended): when `studentID` and `examID` are not both 0, or the exam is in the exam
manager, `startSession` returns normally and is idempotent per key: on a registry that holds
at most one session with the key, two calls with the same `(studentID, examID)` leave exactly
one session with that key, and the second call changes neither the registry nor any session
in it. -/
theorem startSession_idempotent (sm : SessionManager) (em : ExamManager)
    (now1 now2 studentID examID : Int)
    (h : studentID ≠ 0 ∨ examID ≠ 0 ∨ em.getExam examID ≠ none)
    (hone : (sm.sessions.filter (SessionManager.hasKey studentID examID)).length ≤ 1) :
    (sm.startSession em now1 studentID examID).1 = .ok ()
    ∧ (sm.startSession em now1 studentID examID).2.startSession em now2 studentID examID
        = (.ok (), (sm.startSession em now1 studentID examID).2)
    ∧ (((sm.startSession em now1 studentID examID).2.startSession em now2 studentID
          examID).2.sessions.filter (SessionManager.hasKey studentID examID)).length = 1 := by
  cases hfind : sm.sessions.find? (SessionManager.hasKey studentID examID) with
  | some found =>
    have hfirst : sm.startSession em now1 studentID examID = (.ok (), sm) := by
      simp [SessionManager.startSession, hfind]
    have hsecond : sm.startSession em now2 studentID examID = (.ok (), sm) := by
      simp [SessionManager.startSession, hfind]
    rw [hfirst]
    refine ⟨rfl, hsecond, ?_⟩
    rw [hsecond]
    have hmem : found ∈ sm.sessions.filter (SessionManager.hasKey studentID examID) :=
      List.mem_filter.2 ⟨List.mem_of_find?_eq_some hfind, List.find?_some hfind⟩
    have hpos := List.length_pos_of_mem hmem
    show (sm.sessions.filter (SessionManager.hasKey studentID examID)).length = 1
    omega
  | none =>
    obtain ⟨started, hstart, hkey⟩ := SessionManager.startExam_newFor em now1 studentID examID h
    have hfirst : sm.startSession em now1 studentID examID
        = (.ok (), { sessions := sm.sessions ++ [started] }) := by
      simp [SessionManager.startSession, hfind, hstart]
    have hfind2 : (sm.sessions ++ [started]).find? (SessionManager.hasKey studentID examID)
        = some started := by
      simp [List.find?_append, hfind, hkey]
    have hsecond : SessionManager.startSession { sessions := sm.sessions ++ [started] } em now2
        studentID examID = (.ok (), { sessions := sm.sessions ++ [started] }) := by
      simp [SessionManager.startSession, hfind2]
    rw [hfirst]
    refine ⟨rfl, hsecond, ?_⟩
    rw [hsecond]
    have hnil : sm.sessions.filter (SessionManager.hasKey studentID examID) = [] := by
      rw [List.filter_eq_nil_iff]
      intro x hx
      exact List.find?_eq_none.1 hfind x hx
    simp [List.filter_append, hnil, hkey]

/-- Witness of C15 (amended): two calls for student 7 and exam 1000 on the empty registry. -/
theorem startSession_idempotent_witness :
    ((SessionManager.mk []).startSession (sampleManager mcqExam) 100 7 1000).1 = .ok ()
    ∧ ((SessionManager.mk []).startSession (sampleManager mcqExam) 100 7 1000).2.startSession
          (sampleManager mcqExam) 200 7 1000
        = (.ok (), ((SessionManager.mk []).startSession (sampleManager mcqExam) 100 7 1000).2)
    ∧ ((((SessionManager.mk []).startSession (sampleManager mcqExam) 100 7 1000).2.startSession
          (sampleManager mcqExam) 200 7 1000).2.sessions.filter
            (SessionManager.hasKey 7 1000)).length = 1 :=
  startSession_idempotent (SessionManager.mk []) (sampleManager mcqExam) 100 200 7 1000
    (Or.inl (by decide)) (by decide)

/-- C16 (the code at the failing inputs): on the empty registry, with no session file and exam
1000 in the exam manager, `getSession(7, 1000)` does not return null: `loadSessionFromFile`
falls back to a new session with the key, which `getSession` adds to the registry and returns.
And with the session file that `saveSessionToFile` wrote for a session holding an answer,
`getSession` throws the JSON exception of `loadSessionFromFile` instead of returning the
persisted session. -/
theorem getSession_not_found_creates_session :
    (SessionManager.mk []).getSession (sampleManager mcqExam) sampleStoi ⟨[]⟩ 7 1000
      = (.ok (some ⟨7, 1000, some ⟨⟨[]⟩, 7, 1000⟩, some Timer.new, mcqExam.questions, false⟩),
         ⟨[⟨7, 1000, some ⟨⟨[]⟩, 7, 1000⟩, some Timer.new, mcqExam.questions, false⟩]⟩)
    ∧ (SessionManager.mk []).getSession (sampleManager mcqExam) sampleStoi
        (({ sampleSession 7 1000 [(1, "A")] with isFinished := true }
          : ExamSession).saveSessionToFile true ⟨[]⟩) 7 1000
      = (.error (.jsonException 207), ⟨[]⟩) := by
  exact ⟨rfl, rfl⟩

/-- C17 (the code at the failing input): the finished session of student 7 for exam 1000
holding the answer A to question 1 is saved with its answers as the array `[[1, "A"]]`; loading
that file into a fresh session restores student ID, exam ID and the finished flag, then throws
`invalid_iterator.207` at `it.key()`, with no answer restored. -/
theorem saveSession_loadSession_loses_answers :
    ({ sampleSession 7 1000 [(1, "A")] with isFinished := true } : ExamSession).toJson
      = .object [("answers", .array [.array [.number 1, .string "A"]]), ("examID", .number 1000),
          ("isFinished", .boolean true), ("studentID", .number 7)]
    ∧ ExamSession.new.loadSessionFromFile (sampleManager mcqExam) sampleStoi
        (({ sampleSession 7 1000 [(1, "A")] with isFinished := true }
          : ExamSession).saveSessionToFile true ⟨[]⟩) 7 1000
      = (.error (.jsonException 207), ⟨7, 1000, some ⟨⟨[]⟩, 7, 1000⟩, none, [], true⟩) := by
  exact ⟨rfl, rfl⟩

/-! ## The result store -/

theorem GradingSystem.gradeExam_results_find (gs : GradingSystem) (r : ResultPtr) :
    (gs.gradeExam r).results.find r.getStudentID
      = some ((gs.results.find r.getStudentID).getD [] ++ [r]) := by
  have hheld : (match gs.results.find r.getStudentID with
      | some v => v
      | none => []) = (gs.results.find r.getStudentID).getD [] := by
    cases gs.results.find r.getStudentID <;> rfl
  cases hc : gs.reportCards.find r.getStudentID <;>
    simp only [GradingSystem.gradeExam, hc, hheld] <;>
    exact StdMap.findEntries_insertEntries_self _ _ _

theorem ExamGrader.buildResult_ids (studentID examID : Int) (exam : Exam)
    (userAnswers : StdMap String) :
    ∃ r : ResultPtr,
      ExamGrader.buildResult studentID examID exam exam.questions userAnswers = .ok r
      ∧ r.getStudentID = studentID ∧ r.getExamID = examID := by
  cases h : ExamGrader.hasMCQ exam.questions with
  | true => exact ⟨_, ExamGrader.buildResult_mcq _ _ _ _ h, rfl, rfl⟩
  | false =>
    refine ⟨_, ExamGrader.buildResult_descriptive _ _ _ _ h, ?_, ?_⟩
    · simp [ResultPtr.getStudentID, ResultPtr.base, ExamGrader.foldl_feedback_base,
        DescriptiveResult.new]
    · simp [ResultPtr.getExamID, ResultPtr.base, ExamGrader.foldl_feedback_base,
        DescriptiveResult.new]

theorem ExamGrader.gradeExamSession_caught (em : ExamManager) (fileOpens : Bool)
    (gs : GradingSystem) (session : ExamSession) :
    ∀ e : Failure, (ExamGrader.gradeExamSession em fileOpens gs (some session)).1 = .error e →
      e.isException = true := by
  intro e he
  cases hsheet : session.sheet with
  | none =>
    simp [ExamGrader.gradeExamSession, ExamSession.getAnswerSheet, hsheet] at he
    subst he; rfl
  | some sheet =>
    cases hexam : em.getExam session.examID with
    | none =>
      simp [ExamGrader.gradeExamSession, ExamSession.getAnswerSheet, hsheet,
        ExamSession.getExamID, hexam] at he
      subst he; rfl
    | some exam =>
      obtain ⟨r, hr⟩ := ExamGrader.buildResult_ok session.studentID session.examID exam
        sheet.answers
      rw [ExamGrader.gradeExamSession_eq em fileOpens gs session sheet exam r hsheet hexam hr]
        at he
      cases fileOpens
      · simp at he
        subst he; rfl
      · simp at he

theorem ExamGrader.gradeLoop_eq (em : ExamManager) (fileOpens : Int → Int → Bool)
    (sessions : List ExamSession) (gradedCount : Int) (gs : GradingSystem) :
    ExamGrader.gradeLoop em fileOpens sessions gradedCount gs
      = .ok (gradedCount
          + (gradeEach em fileOpens (sessions.filter ExamSession.isExamFinished) gs).1,
          (gradeEach em fileOpens (sessions.filter ExamSession.isExamFinished) gs).2) := by
  induction sessions generalizing gradedCount gs with
  | nil => simp [ExamGrader.gradeLoop, gradeEach]
  | cons session rest ih =>
    unfold ExamGrader.gradeLoop
    cases hfin : session.isExamFinished with
    | false => simp [hfin, ih]
    | true =>
      have hcaught := ExamGrader.gradeExamSession_caught em
        (fileOpens session.getStudentID session.getExamID) gs session
      simp only [if_true, List.filter_cons, hfin, gradeEach]
      generalize hres : ExamGrader.gradeExamSession em
        (fileOpens session.getStudentID session.getExamID) gs (some session) = res at hcaught
      have hres2 : ExamGrader.gradeExamSession em (fileOpens session.studentID session.examID) gs
          (some session) = res := hres
      rw [hres2]
      obtain ⟨outcome, left⟩ := res
      cases outcome with
      | ok u =>
        cases u
        simp only [ih]
        congr 2
        omega
      | error e =>
        have he := hcaught e rfl
        simp only [he, if_true, ih]
        congr 2
        omega

theorem ReportCard.foldl_total (results : List ResultPtr) (start : ℚ) :
    results.foldl (fun total res => total + (res.getScore : ℚ)) start
      = start + (results.map (fun res => (res.getScore : ℚ))).sum := by
  induction results generalizing start with
  | nil => simp
  | cons r rest ih =>
    rw [List.foldl_cons, ih, List.map_cons, List.sum_cons]
    ring

/-- C18: the grader is not idempotent. For a session with an answer sheet whose exam is in the
exam manager, every successful `gradeExamSession` call adds one Result, of the session's student
and exam, at the end of that student's sequence in the result store; grading the same session
twice, with exam and answers unchanged, leaves the sequence longer by two Results, the second
equal to the first (same student ID, exam ID and score). -/
theorem gradeExamSession_appends (em : ExamManager) (gs : GradingSystem) (s : ExamSession)
    (sheet : AnswerSheet) (exam : Exam)
    (hsheet : s.sheet = some sheet) (hexam : em.getExam s.examID = some exam) :
    ∃ r : ResultPtr,
      r.getStudentID = s.studentID ∧ r.getExamID = s.examID
      ∧ ExamGrader.gradeExamSession em true gs (some s) = (.ok (), gs.gradeExam r)
      ∧ (gs.gradeExam r).results.find s.studentID
          = some ((gs.results.find s.studentID).getD [] ++ [r])
      ∧ ExamGrader.gradeExamSession em true (gs.gradeExam r) (some s)
          = (.ok (), (gs.gradeExam r).gradeExam r)
      ∧ ((gs.gradeExam r).gradeExam r).results.find s.studentID
          = some ((gs.results.find s.studentID).getD [] ++ [r, r]) := by
  obtain ⟨r, hr, hsid, heid⟩ :=
    ExamGrader.buildResult_ids s.studentID s.examID exam sheet.answers
  have h1 := GradingSystem.gradeExam_results_find gs r
  have h2 := GradingSystem.gradeExam_results_find (gs.gradeExam r) r
  rw [hsid] at h1 h2
  refine ⟨r, hsid, heid, ?_, h1, ?_, ?_⟩
  · exact ExamGrader.gradeExamSession_eq em true gs s sheet exam r hsheet hexam hr
  · exact ExamGrader.gradeExamSession_eq em true (gs.gradeExam r) s sheet exam r hsheet hexam hr
  · rw [h2, h1]
    simp

/-- Witness of C18: the two-question multiple-choice exam answered A and C, graded twice from
the empty grading system: the store holds the Result with score 50 twice. -/
theorem gradeExamSession_appends_witness :
    (∃ r : ResultPtr,
      r.getStudentID = (sampleSession 7 1000 [(1, "A"), (2, "C")]).studentID
      ∧ r.getExamID = (sampleSession 7 1000 [(1, "A"), (2, "C")]).examID
      ∧ ExamGrader.gradeExamSession (sampleManager mcqExam) true GradingSystem.new
          (some (sampleSession 7 1000 [(1, "A"), (2, "C")]))
        = (.ok (), GradingSystem.new.gradeExam r)
      ∧ (GradingSystem.new.gradeExam r).results.find
            (sampleSession 7 1000 [(1, "A"), (2, "C")]).studentID
          = some ((GradingSystem.new.results.find
              (sampleSession 7 1000 [(1, "A"), (2, "C")]).studentID).getD [] ++ [r])
      ∧ ExamGrader.gradeExamSession (sampleManager mcqExam) true (GradingSystem.new.gradeExam r)
          (some (sampleSession 7 1000 [(1, "A"), (2, "C")]))
        = (.ok (), (GradingSystem.new.gradeExam r).gradeExam r)
      ∧ ((GradingSystem.new.gradeExam r).gradeExam r).results.find
            (sampleSession 7 1000 [(1, "A"), (2, "C")]).studentID
          = some ((GradingSystem.new.results.find
              (sampleSession 7 1000 [(1, "A"), (2, "C")]).studentID).getD [] ++ [r, r]))
    ∧ (ExamGrader.gradeExamSession (sampleManager mcqExam) true
        (ExamGrader.gradeExamSession (sampleManager mcqExam) true GradingSystem.new
          (some (sampleSession 7 1000 [(1, "A"), (2, "C")]))).2
        (some (sampleSession 7 1000 [(1, "A"), (2, "C")]))).2.results
      = ⟨[(7, [.mcq ⟨⟨7, 1000, 50, "MCQ"⟩, 1, 2⟩, .mcq ⟨⟨7, 1000, 50, "MCQ"⟩, 1, 2⟩])]⟩ :=
  ⟨gradeExamSession_appends (sampleManager mcqExam) GradingSystem.new
    (sampleSession 7 1000 [(1, "A"), (2, "C")]) ⟨⟨[(1, "A"), (2, "C")]⟩, 7, 1000⟩ mcqExam
    rfl rfl, rfl⟩

/-- C19: `gradeAllCompletedSessions` returns normally and attempts to grade exactly the
sessions of the registry with `finished == true`, in registry order, skipping the unfinished
ones: its effect is that of grading the finished sessions one after the other, each on the
grading system its predecessor left whether that predecessor succeeded or failed, and the count
it reports is the number of sessions graded successfully. In the registry of a finished session
for a missing exam, an unfinished session and a finished session for an exam of the manager,
the first fails, the second is skipped, the third is graded and the count is 1. -/
theorem gradeAllCompletedSessions_eq :
    (∀ (em : ExamManager) (fileOpens : Int → Int → Bool) (sm : SessionManager)
      (gs : GradingSystem),
      ExamGrader.gradeAllCompletedSessions em fileOpens sm gs
        = .ok (gradeEach em fileOpens (sm.sessions.filter ExamSession.isExamFinished) gs))
    ∧ ExamGrader.gradeAllCompletedSessions (sampleManager mcqExam) (fun _ _ => true)
        ⟨[{ sampleSession 5 4242 [(1, "A")] with isFinished := true },
          sampleSession 6 1000 [(1, "A"), (2, "B")],
          { sampleSession 7 1000 [(1, "A"), (2, "C")] with isFinished := true }]⟩
        GradingSystem.new
      = .ok (1, ⟨⟨[(7, [.mcq ⟨⟨7, 1000, 50, "MCQ"⟩, 1, 2⟩])]⟩, ⟨[]⟩⟩) := by
  refine ⟨?_, rfl⟩
  intro em fileOpens sm gs
  unfold ExamGrader.gradeAllCompletedSessions SessionManager.getAllSessions
  rw [ExamGrader.gradeLoop_eq]
  simp

/-- C20: `ReportCard::addResult` appends the result and sets `averageScore` to the arithmetic
mean of the scores of all results the card then holds, the sum divided by the count; a new card
has `averageScore` 0. A card built from Results with scores 60, 80 and 100 has `averageScore`
80, and adding a fourth Result with score 0 makes it 60. -/
theorem addResult_mean :
    (∀ (c : ReportCard) (r : ResultPtr),
      (c.addResult r).results = c.results ++ [r]
      ∧ (c.addResult r).averageScore
          = ((c.results ++ [r]).map (fun res => (res.getScore : ℚ))).sum
              / ((c.results ++ [r]).length : ℚ))
    ∧ (∀ sid : Int, (ReportCard.new sid).averageScore = 0 ∧ (ReportCard.new sid).results = [])
    ∧ ((((ReportCard.new 7).addResult (sampleResult 1 60)).addResult
          (sampleResult 2 80)).addResult (sampleResult 3 100)).averageScore = 80
    ∧ (((((ReportCard.new 7).addResult (sampleResult 1 60)).addResult
          (sampleResult 2 80)).addResult (sampleResult 3 100)).addResult
            (sampleResult 4 0)).averageScore = 60 := by
  have hgen : ∀ (c : ReportCard) (r : ResultPtr),
      (c.addResult r).results = c.results ++ [r]
      ∧ (c.addResult r).averageScore
          = ((c.results ++ [r]).map (fun res => (res.getScore : ℚ))).sum
              / ((c.results ++ [r]).length : ℚ) := by
    intro c r
    refine ⟨rfl, ?_⟩
    unfold ReportCard.addResult
    simp only [ReportCard.foldl_total, zero_add]
    rw [if_neg]
    simp
  refine ⟨hgen, fun sid => ⟨rfl, rfl⟩, ?_, ?_⟩
  · rw [(hgen _ _).2, (hgen _ _).1, (hgen _ _).1]
    simp [ReportCard.new, sampleResult, ResultPtr.getScore, ResultPtr.base]
    norm_num
  · rw [(hgen _ _).2, (hgen _ _).1, (hgen _ _).1, (hgen _ _).1]
    simp [ReportCard.new, sampleResult, ResultPtr.getScore, ResultPtr.base]
    norm_num

/-! ## Facts about map updates -/

theorem StdMap.find_insert_self {α : Type} (m : StdMap α) (k : Int) (v : α) :
    (m.insert k v).find k = some v :=
  StdMap.findEntries_insertEntries_self k v m.entries

theorem StdMap.find_insert_of_ne {α : Type} (m : StdMap α) {j k : Int} (h : j ≠ k) (v : α) :
    (m.insert k v).find j = m.find j :=
  StdMap.findEntries_insertEntries_of_ne h v m.entries

theorem StdMap.findEntries_assignEntries_self {α : Type} (k : Int) (v : α)
    (l : List (Int × α)) (h : StdMap.findEntries k l ≠ none) :
    StdMap.findEntries k (StdMap.assignEntries k v l) = some v := by
  induction l with
  | nil => exact absurd rfl h
  | cons e rest ih =>
    obtain ⟨k', v'⟩ := e
    unfold StdMap.assignEntries
    by_cases hk : k = k'
    · simp [hk, StdMap.findEntries]
    · have hrest : StdMap.findEntries k rest ≠ none := by
        simpa [StdMap.findEntries, hk] using h
      simp [hk, StdMap.findEntries, ih hrest]

theorem StdMap.findEntries_assignEntries_of_ne {α : Type} {j k : Int} (hjk : j ≠ k) (v : α)
    (l : List (Int × α)) :
    StdMap.findEntries j (StdMap.assignEntries k v l) = StdMap.findEntries j l := by
  induction l with
  | nil => rfl
  | cons e rest ih =>
    obtain ⟨k', v'⟩ := e
    unfold StdMap.assignEntries
    by_cases hk : k = k'
    · subst hk
      simp [StdMap.findEntries, hjk]
    · simp [hk, StdMap.findEntries, ih]

theorem StdMap.keys_assignEntries {α : Type} (k : Int) (v : α) (l : List (Int × α)) :
    (StdMap.assignEntries k v l).map Prod.fst = l.map Prod.fst := by
  induction l with
  | nil => rfl
  | cons e rest ih =>
    obtain ⟨k', v'⟩ := e
    unfold StdMap.assignEntries
    by_cases hk : k = k'
    · simp [hk]
    · simp [hk, ih]

/-! ## The result store and the report cards -/

/-- C21: `GradingSystem::gradeExam(result)` appends the result at the end of the result
sequence of the result's student and, if and only if a report card exists for that student, adds
it to that card; the result sequence and the report card of every other student are unchanged,
and no report card is created. -/
theorem gradeExam_frame (gs : GradingSystem) (result : ResultPtr) :
    (gs.gradeExam result).results.find result.getStudentID
      = some ((gs.results.find result.getStudentID).getD [] ++ [result])
    ∧ (∀ card : ReportCard, gs.reportCards.find result.getStudentID = some card →
        (gs.gradeExam result).reportCards.find result.getStudentID
          = some (card.addResult result))
    ∧ (gs.reportCards.find result.getStudentID = none →
        (gs.gradeExam result).reportCards = gs.reportCards)
    ∧ (∀ other : Int, other ≠ result.getStudentID →
        (gs.gradeExam result).results.find other = gs.results.find other
        ∧ (gs.gradeExam result).reportCards.find other = gs.reportCards.find other)
    ∧ (∀ studentID : Int,
        (gs.gradeExam result).reportCards.find studentID = none
          ↔ gs.reportCards.find studentID = none) := by
  have hres := GradingSystem.gradeExam_results_find gs result
  cases hc : gs.reportCards.find result.getStudentID with
  | none =>
    have hcards : (gs.gradeExam result).reportCards = gs.reportCards := by
      simp only [GradingSystem.gradeExam, hc]
    have hresults : ∀ other : Int, other ≠ result.getStudentID →
        (gs.gradeExam result).results.find other = gs.results.find other := by
      intro other hne
      simp only [GradingSystem.gradeExam, hc]
      exact StdMap.find_insert_of_ne _ hne _
    refine ⟨hres, ?_, fun _ => hcards, ?_, ?_⟩
    · intro card h; cases h
    · intro other hne
      exact ⟨hresults other hne, by rw [hcards]⟩
    · intro studentID; rw [hcards]
  | some card =>
    have hcards : (gs.gradeExam result).reportCards
        = gs.reportCards.insert result.getStudentID (card.addResult result) := by
      simp only [GradingSystem.gradeExam, hc]
    have hresults : ∀ other : Int, other ≠ result.getStudentID →
        (gs.gradeExam result).results.find other = gs.results.find other := by
      intro other hne
      simp only [GradingSystem.gradeExam, hc]
      exact StdMap.find_insert_of_ne _ hne _
    refine ⟨hres, ?_, ?_, ?_, ?_⟩
    · intro card2 h
      cases h
      rw [hcards]; exact StdMap.find_insert_self _ _ _
    · intro h; cases h
    · intro other hne
      refine ⟨hresults other hne, ?_⟩
      rw [hcards]; exact StdMap.find_insert_of_ne _ hne _
    · intro studentID
      by_cases hk : studentID = result.getStudentID
      · subst hk
        rw [hcards, StdMap.find_insert_self, hc]
        simp
      · rw [hcards, StdMap.find_insert_of_ne _ hk]

/-- Witness of C21: a Result of student 7 added to a grading system that holds an empty report
card for student 7 and a result and a card for student 8. -/
theorem gradeExam_frame_witness :
    (twoStudentSystem.gradeExam (sampleResult 1000 60)).reportCards.find
        (sampleResult 1000 60).getStudentID
      = some ((ReportCard.new 7).addResult (sampleResult 1000 60))
    ∧ ((twoStudentSystem.gradeExam (sampleResult 1000 60)).results.find 8
        = twoStudentSystem.results.find 8
      ∧ (twoStudentSystem.gradeExam (sampleResult 1000 60)).reportCards.find 8
        = twoStudentSystem.reportCards.find 8) :=
  ⟨(gradeExam_frame twoStudentSystem (sampleResult 1000 60)).2.1 (ReportCard.new 7) rfl,
   (gradeExam_frame twoStudentSystem (sampleResult 1000 60)).2.2.2.1 8 (by decide)⟩

/-! ## Answers -/

/-- C24: for an unfinished session with an answer sheet, `submitAnswer(questionID, text)` stores
the text under the question ID, for every question ID and whatever the question snapshot of the
session holds: afterwards `getAnswer(questionID)` returns the text, replacing any earlier answer,
the answers of all other question IDs are as before, and no other field of the session
changed. -/
theorem submitAnswer_stores (s : ExamSession) (sheet : AnswerSheet) (questionID : Int)
    (text : String) (hopen : s.isFinished = false) (hsheet : s.sheet = some sheet) :
    s.submitAnswer questionID text = { s with sheet := some (sheet.addAnswer questionID text) }
    ∧ (sheet.addAnswer questionID text).getAnswer questionID = text
    ∧ (∀ other : Int, other ≠ questionID →
        (sheet.addAnswer questionID text).getAnswer other = sheet.getAnswer other) := by
  refine ⟨?_, ?_, ?_⟩
  · simp [ExamSession.submitAnswer, hopen, hsheet]
  · simp [AnswerSheet.getAnswer, AnswerSheet.addAnswer, StdMap.find_insert_self]
  · intro other hne
    simp [AnswerSheet.getAnswer, AnswerSheet.addAnswer, StdMap.find_insert_of_ne _ hne]

/-- Witness of C24: the answer Z submitted for question 99, which is in no question snapshot, in
a session that holds the answer A to question 1. -/
theorem submitAnswer_stores_witness :
    (sampleSession 7 1000 [(1, "A")]).submitAnswer 99 "Z"
      = { sampleSession 7 1000 [(1, "A")] with
          sheet := some ((⟨⟨[(1, "A")]⟩, 7, 1000⟩ : AnswerSheet).addAnswer 99 "Z") }
    ∧ ((⟨⟨[(1, "A")]⟩, 7, 1000⟩ : AnswerSheet).addAnswer 99 "Z").getAnswer 99 = "Z"
    ∧ ((⟨⟨[(1, "A")]⟩, 7, 1000⟩ : AnswerSheet).addAnswer 99 "Z").getAnswer 1
        = (⟨⟨[(1, "A")]⟩, 7, 1000⟩ : AnswerSheet).getAnswer 1 :=
  ⟨(submitAnswer_stores (sampleSession 7 1000 [(1, "A")]) ⟨⟨[(1, "A")]⟩, 7, 1000⟩ 99 "Z"
      rfl rfl).1,
   (submitAnswer_stores (sampleSession 7 1000 [(1, "A")]) ⟨⟨[(1, "A")]⟩, 7, 1000⟩ 99 "Z"
      rfl rfl).2.1,
   (submitAnswer_stores (sampleSession 7 1000 [(1, "A")]) ⟨⟨[(1, "A")]⟩, 7, 1000⟩ 99 "Z"
      rfl rfl).2.2 1 (by decide)⟩

/-- C26: `AnswerSheet::updateAnswer(questionID, text)` is a no-op when the question ID is
absent: the sheet, and so the mapping `getAllAnswers` returns, is unchanged, the key is not
created and `getAnswer(questionID)` still returns the empty string. When the key is present,
its value becomes the text and nothing else changes: the keys are the same and the answer of
every other question ID is as before. -/
theorem updateAnswer_frame (a : AnswerSheet) (questionID : Int) (text : String) :
    (a.answers.find questionID = none →
      a.updateAnswer questionID text = a
      ∧ (a.updateAnswer questionID text).getAllAnswers = a.getAllAnswers
      ∧ (a.updateAnswer questionID text).getAllAnswers.find questionID = none
      ∧ (a.updateAnswer questionID text).getAnswer questionID = "")
    ∧ (a.answers.find questionID ≠ none →
      (a.updateAnswer questionID text).getAllAnswers.find questionID = some text
      ∧ (a.updateAnswer questionID text).getAllAnswers.keys = a.getAllAnswers.keys
      ∧ (∀ other : Int, other ≠ questionID →
          (a.updateAnswer questionID text).getAllAnswers.find other
            = a.getAllAnswers.find other)
      ∧ (a.updateAnswer questionID text).studentID = a.studentID
      ∧ (a.updateAnswer questionID text).examID = a.examID) := by
  constructor
  · intro habsent
    have hsame : a.updateAnswer questionID text = a := by
      simp [AnswerSheet.updateAnswer, habsent]
    rw [hsame]
    exact ⟨rfl, rfl, habsent, by simp [AnswerSheet.getAnswer, habsent]⟩
  · intro hpresent
    obtain ⟨stored, hstored⟩ := Option.ne_none_iff_exists'.1 hpresent
    have hupd : a.updateAnswer questionID text
        = { a with answers := ⟨StdMap.assignEntries questionID text a.answers.entries⟩ } := by
      simp [AnswerSheet.updateAnswer, hstored]
    rw [hupd]
    refine ⟨?_, ?_, ?_, rfl, rfl⟩
    · exact StdMap.findEntries_assignEntries_self _ _ _ hpresent
    · exact StdMap.keys_assignEntries _ _ _
    · intro other hne
      exact StdMap.findEntries_assignEntries_of_ne hne _ _

/-- Witness of C26: on the sheet holding A for question 1 and B for question 2, an update of
the absent question 3 and an update of question 2. -/
theorem updateAnswer_frame_witness :
    ((⟨⟨[(1, "A"), (2, "B")]⟩, 7, 1000⟩ : AnswerSheet).updateAnswer 3 "Z"
        = ⟨⟨[(1, "A"), (2, "B")]⟩, 7, 1000⟩
      ∧ ((⟨⟨[(1, "A"), (2, "B")]⟩, 7, 1000⟩ : AnswerSheet).updateAnswer 3 "Z").getAnswer 3 = "")
    ∧ ((⟨⟨[(1, "A"), (2, "B")]⟩, 7, 1000⟩ : AnswerSheet).updateAnswer 2 "Z").getAllAnswers.find 2
        = some "Z"
    ∧ ((⟨⟨[(1, "A"), (2, "B")]⟩, 7, 1000⟩ : AnswerSheet).updateAnswer 2 "Z").getAllAnswers.find 1
        = (⟨⟨[(1, "A"), (2, "B")]⟩, 7, 1000⟩ : AnswerSheet).getAllAnswers.find 1 :=
  ⟨⟨((updateAnswer_frame ⟨⟨[(1, "A"), (2, "B")]⟩, 7, 1000⟩ 3 "Z").1 rfl).1,
    ((updateAnswer_frame ⟨⟨[(1, "A"), (2, "B")]⟩, 7, 1000⟩ 3 "Z").1 rfl).2.2.2⟩,
   ((updateAnswer_frame ⟨⟨[(1, "A"), (2, "B")]⟩, 7, 1000⟩ 2 "Z").2 (by decide)).1,
   ((updateAnswer_frame ⟨⟨[(1, "A"), (2, "B")]⟩, 7, 1000⟩ 2 "Z").2 (by decide)).2.2.1 1
      (by decide)⟩

/-! ## Starting a session through the registry -/

/-- C27: for every `studentID` and `examID` that are not both 0 and an exam of the exam
manager, on a registry without a session of that key, `startSession` stores the session that
the constructor `ExamSession(sid, eid)` built: its identity is bound, so `startExam` took the
branch of an assigned session and `startTimer` was not called. The timer of the new session is
not running and `getRemainingTime` returns 0 at every instant, whatever the duration of the
exam. -/
theorem startSession_timer_not_started (sm : SessionManager) (em : ExamManager) (exam : Exam)
    (now studentID examID : Int)
    (hid : studentID ≠ 0 ∨ examID ≠ 0) (hexam : em.getExam examID = some exam)
    (hnew : sm.sessions.find? (SessionManager.hasKey studentID examID) = none) :
    sm.startSession em now studentID examID
      = (.ok (), { sessions := sm.sessions ++ [ExamSession.newFor em studentID examID] })
    ∧ (ExamSession.newFor em studentID examID).studentID = studentID
    ∧ (ExamSession.newFor em studentID examID).examID = examID
    ∧ (ExamSession.newFor em studentID examID).examQuestions = exam.questions
    ∧ ∃ timer : Timer,
        (ExamSession.newFor em studentID examID).timer = some timer
        ∧ timer.isRunning = false
        ∧ ∀ ticksPerMinute instant : Int, Timer.getRemainingTime ticksPerMinute timer instant = 0 := by
  have hfind : em.container.find examID = some exam := hexam
  refine ⟨?_, rfl, rfl, ?_, Timer.new, rfl, rfl, ?_⟩
  · simp [SessionManager.startSession, hnew,
      ExamSession.startExam_of_bound (ExamSession.newFor em studentID examID) em now studentID
        examID hid]
  · simp [ExamSession.newFor, hexam, ExamManager.getExamQuestions, hfind,
      Exam.getQuestionsCopy_eq]
  · intro ticksPerMinute instant
    simp [Timer.getRemainingTime, Timer.new]

/-- Witness of C27: the session of student 7 for the 30 minute exam 1000, started at instant
100 on the empty registry. -/
theorem startSession_timer_not_started_witness :
    (SessionManager.mk []).startSession (sampleManager mcqExam) 100 7 1000
      = (.ok (), { sessions := [] ++ [ExamSession.newFor (sampleManager mcqExam) 7 1000] })
    ∧ (ExamSession.newFor (sampleManager mcqExam) 7 1000).studentID = 7
    ∧ (ExamSession.newFor (sampleManager mcqExam) 7 1000).examID = 1000
    ∧ (ExamSession.newFor (sampleManager mcqExam) 7 1000).examQuestions = mcqExam.questions
    ∧ ∃ timer : Timer,
        (ExamSession.newFor (sampleManager mcqExam) 7 1000).timer = some timer
        ∧ timer.isRunning = false
        ∧ ∀ ticksPerMinute instant : Int, Timer.getRemainingTime ticksPerMinute timer instant = 0 :=
  startSession_timer_not_started (SessionManager.mk []) (sampleManager mcqExam) mcqExam 100 7 1000
    (Or.inl (by decide)) rfl rfl

/-! ## Grading and the finished flag -/

/-- C30: `gradeExamSession` does not depend on the `finished` flag of the session: for two
sessions with the same student ID, exam ID and answer sheet, whatever their `finished` flags,
timers and question snapshots, grading gives the same outcome and leaves the same grading
system, so a Result is made from a session that was not finished just as from a finished one;
`gradeAllCompletedSessions` is where unfinished sessions are skipped. -/
theorem gradeExamSession_ignores_finished (em : ExamManager) (fileOpens : Bool)
    (gs : GradingSystem) (s1 s2 : ExamSession)
    (hsid : s1.studentID = s2.studentID) (heid : s1.examID = s2.examID)
    (hsheet : s1.sheet = s2.sheet) :
    ExamGrader.gradeExamSession em fileOpens gs (some s1)
      = ExamGrader.gradeExamSession em fileOpens gs (some s2) := by
  unfold ExamGrader.gradeExamSession
  simp only [ExamSession.getStudentID, ExamSession.getExamID, ExamSession.getAnswerSheet, hsid,
    heid, hsheet]

/-- Witness of C30: the session answering A and C, unfinished and finished: both are graded,
with the same Result of score 50, while the batch grading skips the unfinished one. -/
theorem gradeExamSession_ignores_finished_witness :
    ExamGrader.gradeExamSession (sampleManager mcqExam) true GradingSystem.new
        (some (sampleSession 7 1000 [(1, "A"), (2, "C")]))
      = ExamGrader.gradeExamSession (sampleManager mcqExam) true GradingSystem.new
        (some { sampleSession 7 1000 [(1, "A"), (2, "C")] with isFinished := true })
    ∧ ExamGrader.gradeExamSession (sampleManager mcqExam) true GradingSystem.new
        (some (sampleSession 7 1000 [(1, "A"), (2, "C")]))
      = (.ok (), ⟨⟨[(7, [.mcq ⟨⟨7, 1000, 50, "MCQ"⟩, 1, 2⟩])]⟩, ⟨[]⟩⟩)
    ∧ ExamGrader.gradeAllCompletedSessions (sampleManager mcqExam) (fun _ _ => true)
        ⟨[sampleSession 7 1000 [(1, "A"), (2, "C")]]⟩ GradingSystem.new
      = .ok (0, GradingSystem.new) :=
  ⟨gradeExamSession_ignores_finished (sampleManager mcqExam) true GradingSystem.new
    (sampleSession 7 1000 [(1, "A"), (2, "C")])
    { sampleSession 7 1000 [(1, "A"), (2, "C")] with isFinished := true } rfl rfl rfl, rfl, rfl⟩

/-! ## Ending a session -/

theorem ExamSession.finishExam_fields (s : ExamSession) (now : Int) (fileOpens : Bool)
    (fs : FileSystem) :
    (s.finishExam now fileOpens fs).1.isFinished = true
    ∧ (s.finishExam now fileOpens fs).1.studentID = s.studentID
    ∧ (s.finishExam now fileOpens fs).1.examID = s.examID
    ∧ (s.finishExam now fileOpens fs).1.sheet = s.sheet
    ∧ (s.finishExam now fileOpens fs).1.examQuestions = s.examQuestions := by
  unfold ExamSession.finishExam
  cases h : s.isFinished <;> simp [h]

theorem SessionManager.endSessionLoop_keys (now : Int) (fileOpens : Bool)
    (studentID examID : Int) (sessions : List ExamSession) (fs : FileSystem) :
    (SessionManager.endSessionLoop now fileOpens studentID examID sessions fs).1.map
        (fun s => (s.studentID, s.examID))
      = sessions.map (fun s => (s.studentID, s.examID)) := by
  induction sessions with
  | nil => rfl
  | cons session rest ih =>
    unfold SessionManager.endSessionLoop
    split_ifs with h
    · have hf := ExamSession.finishExam_fields session now fileOpens fs
      simp [hf.2.1, hf.2.2.1]
    · simp [ih]

theorem SessionManager.endSessionLoop_none (now : Int) (fileOpens : Bool)
    (studentID examID : Int) (sessions : List ExamSession) (fs : FileSystem)
    (h : ∀ x ∈ sessions, SessionManager.hasKey studentID examID x = false) :
    SessionManager.endSessionLoop now fileOpens studentID examID sessions fs = (sessions, fs) := by
  induction sessions with
  | nil => rfl
  | cons session rest ih =>
    have hs : (session.getStudentID == studentID && session.getExamID == examID) = false :=
      h session (List.mem_cons_self _ _)
    have hrest := ih (fun x hx => h x (List.mem_cons_of_mem _ hx))
    unfold SessionManager.endSessionLoop
    simp [hs, hrest]

theorem SessionManager.endSessionLoop_first (now : Int) (fileOpens : Bool)
    (studentID examID : Int) (before : List ExamSession) (session : ExamSession)
    (after : List ExamSession) (fs : FileSystem)
    (hbefore : ∀ x ∈ before, SessionManager.hasKey studentID examID x = false)
    (hkey : SessionManager.hasKey studentID examID session = true) :
    SessionManager.endSessionLoop now fileOpens studentID examID (before ++ session :: after) fs
      = (before ++ (session.finishExam now fileOpens fs).1 :: after,
         (session.finishExam now fileOpens fs).2) := by
  induction before with
  | nil =>
    have hs : (session.getStudentID == studentID && session.getExamID == examID) = true := hkey
    simp [SessionManager.endSessionLoop, hs]
  | cons x rest ih =>
    have hx : (x.getStudentID == studentID && x.getExamID == examID) = false :=
      hbefore x (List.mem_cons_self _ _)
    have hrest := ih (fun y hy => hbefore y (List.mem_cons_of_mem _ hy))
    rw [List.cons_append]
    unfold SessionManager.endSessionLoop
    simp [hx, hrest]

/-- C25: `SessionManager::endSession(studentID, examID)` finishes the first session of the
registry with that key and removes no session: the registry holds as many sessions, with the
same keys in the same order, before and after; the sessions before and after the finished one
are unchanged, the finished one keeps its identity, answer sheet and question snapshot and has
`finished = true`; and when no session has the key, the registry and the files are left
entirely unchanged. -/
theorem endSession_keeps_sessions (sm : SessionManager) (now : Int) (fileOpens : Bool)
    (fs : FileSystem) (studentID examID : Int) :
    (sm.endSession now fileOpens fs studentID examID).1.sessions.length = sm.sessions.length
    ∧ (sm.endSession now fileOpens fs studentID examID).1.sessions.map
          (fun s => (s.studentID, s.examID))
        = sm.sessions.map (fun s => (s.studentID, s.examID))
    ∧ (sm.sessions.find? (SessionManager.hasKey studentID examID) = none →
        sm.endSession now fileOpens fs studentID examID = (sm, fs))
    ∧ (∀ (before : List ExamSession) (session : ExamSession) (after : List ExamSession),
        sm.sessions = before ++ session :: after →
        (∀ x ∈ before, SessionManager.hasKey studentID examID x = false) →
        SessionManager.hasKey studentID examID session = true →
        sm.endSession now fileOpens fs studentID examID
          = ({ sessions := before ++ (session.finishExam now fileOpens fs).1 :: after },
             (session.finishExam now fileOpens fs).2)
        ∧ (session.finishExam now fileOpens fs).1.isFinished = true
        ∧ (session.finishExam now fileOpens fs).1.studentID = session.studentID
        ∧ (session.finishExam now fileOpens fs).1.examID = session.examID
        ∧ (session.finishExam now fileOpens fs).1.sheet = session.sheet
        ∧ (session.finishExam now fileOpens fs).1.examQuestions = session.examQuestions) := by
  have hkeys := SessionManager.endSessionLoop_keys now fileOpens studentID examID sm.sessions fs
  refine ⟨?_, hkeys, ?_, ?_⟩
  · have hlen := congrArg List.length hkeys
    simpa [SessionManager.endSession] using hlen
  · intro hnone
    have hall : ∀ x ∈ sm.sessions, SessionManager.hasKey studentID examID x = false := by
      intro x hx
      simpa using List.find?_eq_none.1 hnone x hx
    simp [SessionManager.endSession,
      SessionManager.endSessionLoop_none now fileOpens studentID examID sm.sessions fs hall]
  · intro before session after hsplit hbefore hkey
    refine ⟨?_, ExamSession.finishExam_fields session now fileOpens fs⟩
    simp [SessionManager.endSession, hsplit,
      SessionManager.endSessionLoop_first now fileOpens studentID examID before session after fs
        hbefore hkey]

/-- Witness of C25: the registry of the sessions of students 7 and 8 for exam 1000; the session
of student 8 is ended, and a session of student 9 is not found. -/
theorem endSession_keeps_sessions_witness :
    (SessionManager.endSession ⟨[sampleSession 7 1000 [], sampleSession 8 1000 [(1, "A")]]⟩
        50 true ⟨[]⟩ 9 1000
      = (⟨[sampleSession 7 1000 [], sampleSession 8 1000 [(1, "A")]]⟩, ⟨[]⟩))
    ∧ (SessionManager.endSession ⟨[sampleSession 7 1000 [], sampleSession 8 1000 [(1, "A")]]⟩
        50 true ⟨[]⟩ 8 1000
      = ({ sessions := [sampleSession 7 1000 []]
            ++ ((sampleSession 8 1000 [(1, "A")]).finishExam 50 true ⟨[]⟩).1 :: [] },
          ((sampleSession 8 1000 [(1, "A")]).finishExam 50 true ⟨[]⟩).2)
      ∧ ((sampleSession 8 1000 [(1, "A")]).finishExam 50 true ⟨[]⟩).1.isFinished = true
      ∧ ((sampleSession 8 1000 [(1, "A")]).finishExam 50 true ⟨[]⟩).1.studentID
          = (sampleSession 8 1000 [(1, "A")]).studentID
      ∧ ((sampleSession 8 1000 [(1, "A")]).finishExam 50 true ⟨[]⟩).1.examID
          = (sampleSession 8 1000 [(1, "A")]).examID
      ∧ ((sampleSession 8 1000 [(1, "A")]).finishExam 50 true ⟨[]⟩).1.sheet
          = (sampleSession 8 1000 [(1, "A")]).sheet
      ∧ ((sampleSession 8 1000 [(1, "A")]).finishExam 50 true ⟨[]⟩).1.examQuestions
          = (sampleSession 8 1000 [(1, "A")]).examQuestions) :=
  ⟨(endSession_keeps_sessions ⟨[sampleSession 7 1000 [], sampleSession 8 1000 [(1, "A")]]⟩
      50 true ⟨[]⟩ 9 1000).2.2.1 rfl,
   (endSession_keeps_sessions ⟨[sampleSession 7 1000 [], sampleSession 8 1000 [(1, "A")]]⟩
      50 true ⟨[]⟩ 8 1000).2.2.2 [sampleSession 7 1000 []] (sampleSession 8 1000 [(1, "A")]) []
      rfl (by decide) rfl⟩

/-! ## Generating report cards -/

theorem ReportCard.addResult_eq (c : ReportCard) (r : ResultPtr) :
    c.addResult r
      = { c with results := c.results ++ [r], averageScore := meanScore (c.results ++ [r]) } := by
  unfold ReportCard.addResult meanScore
  simp only [ReportCard.foldl_total, zero_add]

theorem ReportCard.foldl_fill (studentResults : List ResultPtr) (held : List ResultPtr)
    (total : ℚ) :
    studentResults.foldl
      (fun (acc : List ResultPtr × ℚ) res => (acc.1 ++ [res], acc.2 + (res.getScore : ℚ)))
      (held, total)
      = (held ++ studentResults,
         total + (studentResults.map (fun res => (res.getScore : ℚ))).sum) := by
  induction studentResults generalizing held total with
  | nil => simp
  | cons r rest ih =>
    rw [List.foldl_cons, ih]
    simp [add_assoc]

theorem ReportCard.generateReport_of_found (c : ReportCard) (gs : GradingSystem) (sid : Int)
    (held : List ResultPtr) (h : gs.results.find sid = some held) :
    c.generateReport gs sid
      = (.ok (), { c with results := held, averageScore := meanScore held }) := by
  unfold ReportCard.generateReport GradingSystem.getStudentResults meanScore
  simp only [h, ReportCard.foldl_fill, List.nil_append, zero_add]

theorem ReportCard.generateReport_of_missing (c : ReportCard) (gs : GradingSystem) (sid : Int)
    (h : gs.results.find sid = none) :
    c.generateReport gs sid
      = (.error (.gradingException "Failed to generate report: Student not found"), c) := by
  unfold ReportCard.generateReport GradingSystem.getStudentResults
  simp only [h]
  rfl

theorem GradingSystem.generateReportCard_of_found (gs : GradingSystem) (studentID : Int)
    (held : List ResultPtr) (h : gs.results.find studentID = some held) :
    gs.generateReportCard studentID
      = (.ok (),
         { results := gs.results,
           reportCards := gs.reportCards.insert studentID
             ⟨((gs.reportCards.find studentID).getD (ReportCard.new studentID)).studentID, held,
               meanScore held⟩ }) := by
  unfold GradingSystem.generateReportCard
  simp only [ReportCard.generateReport_of_found _ gs studentID held h]
  cases gs.reportCards.find studentID <;> rfl

/-- C22: for a student present in the result store, `generateReportCard(studentID)` succeeds
and is a full rebuild: afterwards the result sequence of the student's card is the sequence the
store holds for the student, in its order, and `averageScore` is the mean of their scores,
whatever the card held before, results added through `ReportCard::addResult` included; the store
is unchanged, and a second call in a row succeeds and gives the same card. -/
theorem generateReportCard_rebuilds (gs : GradingSystem) (studentID : Int)
    (held : List ResultPtr) (h : gs.results.find studentID = some held) :
    (gs.generateReportCard studentID).1 = .ok ()
    ∧ (gs.generateReportCard studentID).2.results = gs.results
    ∧ (∃ card : ReportCard,
        (gs.generateReportCard studentID).2.reportCards.find studentID = some card
        ∧ card.results = held ∧ card.averageScore = meanScore held
        ∧ ((gs.generateReportCard studentID).2.generateReportCard studentID).1 = .ok ()
        ∧ ((gs.generateReportCard studentID).2.generateReportCard studentID).2.reportCards.find
            studentID = some card) := by
  have hsecond : ∀ cards : StdMap ReportCard,
      GradingSystem.generateReportCard ⟨gs.results, cards⟩ studentID
        = (.ok (),
           { results := gs.results,
             reportCards := cards.insert studentID
               ⟨((cards.find studentID).getD (ReportCard.new studentID)).studentID, held,
                 meanScore held⟩ }) :=
    fun cards => GradingSystem.generateReportCard_of_found ⟨gs.results, cards⟩ studentID held h
  rw [GradingSystem.generateReportCard_of_found gs studentID held h]
  refine ⟨rfl, rfl, _, StdMap.find_insert_self _ _ _, rfl, rfl, ?_, ?_⟩
  · dsimp only
    rw [hsecond]
  · dsimp only
    rw [hsecond]
    simp only [StdMap.find_insert_self, Option.getD_some]

/-- Witness of C22: student 8 holds one result of score 40 in the store, and a card to which a
result of score 100 was added directly; the rebuilt card holds the stored result only. -/
theorem generateReportCard_rebuilds_witness :
    (GradingSystem.generateReportCard
        { twoStudentSystem with
          reportCards := ⟨[(8, (ReportCard.new 8).addResult (sampleResult 1000 100))]⟩ } 8).1
      = .ok ()
    ∧ (GradingSystem.generateReportCard
        { twoStudentSystem with
          reportCards := ⟨[(8, (ReportCard.new 8).addResult (sampleResult 1000 100))]⟩ } 8).2.results
      = twoStudentSystem.results
    ∧ ∃ card : ReportCard,
        (GradingSystem.generateReportCard
          { twoStudentSystem with
            reportCards := ⟨[(8, (ReportCard.new 8).addResult (sampleResult 1000 100))]⟩ }
          8).2.reportCards.find 8 = some card
        ∧ card.results = [.mcq ⟨⟨8, 1000, 40, "MCQ"⟩, 2, 5⟩]
        ∧ card.averageScore = meanScore [.mcq ⟨⟨8, 1000, 40, "MCQ"⟩, 2, 5⟩]
        ∧ ((GradingSystem.generateReportCard
            { twoStudentSystem with
              reportCards := ⟨[(8, (ReportCard.new 8).addResult (sampleResult 1000 100))]⟩ }
            8).2.generateReportCard 8).1 = .ok ()
        ∧ ((GradingSystem.generateReportCard
            { twoStudentSystem with
              reportCards := ⟨[(8, (ReportCard.new 8).addResult (sampleResult 1000 100))]⟩ }
            8).2.generateReportCard 8).2.reportCards.find 8 = some card :=
  generateReportCard_rebuilds
      { twoStudentSystem with
        reportCards := ⟨[(8, (ReportCard.new 8).addResult (sampleResult 1000 100))]⟩ } 8
      [.mcq ⟨⟨8, 1000, 40, "MCQ"⟩, 2, 5⟩] rfl

/-- C28: for a student with no entry in the result store and no report card,
`generateReportCard(studentID)` fails with a `GradingException` and is not atomic: the empty
report card of the student is in the map when the exception leaves, so that `getReportCard`,
which failed with "Report card not found" before the call, succeeds after it and returns a card
with no results and `averageScore` 0. -/
theorem generateReportCard_not_atomic (gs : GradingSystem) (studentID : Int)
    (hstore : gs.results.find studentID = none) (hcard : gs.reportCards.find studentID = none) :
    gs.getReportCard studentID = .error (.gradingException "Report card not found")
    ∧ (gs.generateReportCard studentID).1
        = .error (.gradingException "Failed to generate report: Student not found")
    ∧ (gs.generateReportCard studentID).2.results = gs.results
    ∧ (gs.generateReportCard studentID).2.getReportCard studentID = .ok (ReportCard.new studentID)
    ∧ (ReportCard.new studentID).results = []
    ∧ (ReportCard.new studentID).averageScore = 0 := by
  have hgen : gs.generateReportCard studentID
      = (.error (.gradingException "Failed to generate report: Student not found"),
         { gs with reportCards := gs.reportCards.insert studentID (ReportCard.new studentID) }) := by
    unfold GradingSystem.generateReportCard
    simp only [hcard, ReportCard.generateReport_of_missing _ gs studentID hstore]
  rw [hgen]
  refine ⟨?_, rfl, rfl, ?_, rfl, rfl⟩
  · simp [GradingSystem.getReportCard, hcard]
  · simp [GradingSystem.getReportCard, StdMap.find_insert_self]

/-- Witness of C28: student 9 on a grading system that knows students 7 and 8 only. -/
theorem generateReportCard_not_atomic_witness :
    twoStudentSystem.getReportCard 9 = .error (.gradingException "Report card not found")
    ∧ (twoStudentSystem.generateReportCard 9).1
        = .error (.gradingException "Failed to generate report: Student not found")
    ∧ (twoStudentSystem.generateReportCard 9).2.results = twoStudentSystem.results
    ∧ (twoStudentSystem.generateReportCard 9).2.getReportCard 9 = .ok (ReportCard.new 9)
    ∧ (ReportCard.new 9).results = []
    ∧ (ReportCard.new 9).averageScore = 0 :=
  generateReportCard_not_atomic twoStudentSystem 9 rfl rfl

/-! ## Report cards agree with the result store -/

theorem GradingSystem.consistent_gradeExam (gs : GradingSystem) (result : ResultPtr)
    (h : gs.Consistent) : (gs.gradeExam result).Consistent := by
  intro studentID card hcard
  have hres := GradingSystem.gradeExam_results_find gs result
  by_cases hk : studentID = result.getStudentID
  · subst hk
    cases hc : gs.reportCards.find result.getStudentID with
    | none =>
      have hcards : (gs.gradeExam result).reportCards = gs.reportCards := by
        simp only [GradingSystem.gradeExam, hc]
      rw [hcards, hc] at hcard
      cases hcard
    | some old =>
      have hcards : (gs.gradeExam result).reportCards
          = gs.reportCards.insert result.getStudentID (old.addResult result) := by
        simp only [GradingSystem.gradeExam, hc]
      rw [hcards, StdMap.find_insert_self] at hcard
      cases hcard
      rw [hres, ReportCard.addResult_eq]
      exact ⟨by simp [(h _ old hc).1], rfl⟩
  · have hresults : (gs.gradeExam result).results.find studentID = gs.results.find studentID := by
      cases hc : gs.reportCards.find result.getStudentID <;>
        simp only [GradingSystem.gradeExam, hc] <;>
        exact StdMap.find_insert_of_ne _ hk _
    have hcards : (gs.gradeExam result).reportCards.find studentID
        = gs.reportCards.find studentID := by
      cases hc : gs.reportCards.find result.getStudentID with
      | none => simp only [GradingSystem.gradeExam, hc]
      | some old =>
        simp only [GradingSystem.gradeExam, hc]
        exact StdMap.find_insert_of_ne _ hk _
    rw [hcards] at hcard
    rw [hresults]
    exact h studentID card hcard

theorem GradingSystem.consistent_generateReportCard (gs : GradingSystem) (sid : Int)
    (h : gs.Consistent) : (gs.generateReportCard sid).2.Consistent := by
  intro studentID card hcard
  have hresults : (gs.generateReportCard sid).2.results = gs.results := rfl
  rw [hresults]
  by_cases hk : studentID = sid
  · subst hk
    cases hstore : gs.results.find studentID with
    | some held =>
      rw [GradingSystem.generateReportCard_of_found gs studentID held hstore] at hcard
      simp only [StdMap.find_insert_self] at hcard
      cases hcard
      exact ⟨rfl, rfl⟩
    | none =>
      have hgen : (gs.generateReportCard studentID).2.reportCards
          = gs.reportCards.insert studentID
              (match gs.reportCards.find studentID with
                | some card => card
                | none => ReportCard.new studentID) := by
        unfold GradingSystem.generateReportCard
        simp only [ReportCard.generateReport_of_missing _ gs studentID hstore]
      rw [hgen, StdMap.find_insert_self] at hcard
      cases hc : gs.reportCards.find studentID with
      | none =>
        rw [hc] at hcard
        cases hcard
        exact ⟨rfl, rfl⟩
      | some old =>
        rw [hc] at hcard
        cases hcard
        have hold := h studentID old hc
        rw [hstore] at hold
        exact hold
  · have hcards : (gs.generateReportCard sid).2.reportCards.find studentID
        = gs.reportCards.find studentID := by
      unfold GradingSystem.generateReportCard
      exact StdMap.find_insert_of_ne _ hk _
    rw [hcards] at hcard
    exact h studentID card hcard

/-- C29: in every state of the grading system reached from the empty state by `gradeExam` and
`generateReportCard` calls, successful or failing, every report card agrees with the result
store: its result sequence is the sequence the store holds for that student, the empty one
when the student has no entry, and its `averageScore` is the mean of the scores, 0 when there
is none. -/
theorem reachable_consistent (gs : GradingSystem) (h : gs.Reachable) : gs.Consistent := by
  induction h with
  | empty =>
    intro studentID card hcard
    cases hcard
  | gradeExam gs result _ ih => exact GradingSystem.consistent_gradeExam gs result ih
  | generateReportCard gs studentID _ ih =>
    exact GradingSystem.consistent_generateReportCard gs studentID ih

/-- Witness of C29: a failing `generateReportCard(7)` on the empty state, a Result of score 60
for student 7, a `generateReportCard(7)` that succeeds and a second Result of score 80. -/
theorem reachable_consistent_witness :
    ((((GradingSystem.new.generateReportCard 7).2.gradeExam
        (sampleResult 1000 60)).generateReportCard 7).2.gradeExam
          (sampleResult 1001 80)).Consistent :=
  reachable_consistent _
    (.gradeExam _ _ (.generateReportCard _ _ (.gradeExam _ _
      (.generateReportCard _ _ .empty))))

/-! ## Exam statistics -/

theorem ExamGrader.foldl_collect (examID : Int) (studentResults collected : List ResultPtr) :
    studentResults.foldl
      (fun collected result =>
        if result.getExamID == examID then collected ++ [result] else collected)
      collected
      = collected ++ studentResults.filter (fun result => result.getExamID == examID) := by
  induction studentResults generalizing collected with
  | nil => simp
  | cons r rest ih =>
    rw [List.foldl_cons, ih]
    cases h : r.getExamID == examID <;> simp [h]

theorem ExamGrader.collectExamResults_eq (gs : GradingSystem) (examID : Int)
    (sessions : List ExamSession) (examResults : List ResultPtr) :
    ExamGrader.collectExamResults gs examID sessions examResults
      = examResults ++ statisticsResults ⟨sessions⟩ gs examID := by
  induction sessions generalizing examResults with
  | nil => simp [ExamGrader.collectExamResults, statisticsResults]
  | cons session rest ih =>
    unfold ExamGrader.collectExamResults
    have hstat : ∀ l : List ExamSession, statisticsResults ⟨l⟩ gs examID
        = (l.filter (fun session => session.examID == examID && session.isFinished)).flatMap
            (fun session => ((gs.results.find session.studentID).getD []).filter
              (fun result => result.getExamID == examID)) := fun _ => rfl
    cases hsel : (session.getExamID == examID && session.isExamFinished) with
    | false =>
      have hsel2 : (session.examID == examID && session.isFinished) = false := hsel
      simp only [Bool.false_eq_true, if_false, ih, hstat, List.filter_cons, hsel2]
    | true =>
      have hsel2 : (session.examID == examID && session.isFinished) = true := hsel
      simp only [if_true, hstat, List.filter_cons, hsel2, List.flatMap_cons,
        GradingSystem.getStudentResults, ExamSession.getStudentID]
      cases hfind : gs.results.find session.studentID with
      | none => simp [ih, hstat]
      | some held =>
        dsimp only
        rw [ih, ExamGrader.foldl_collect, hstat, Option.getD_some, List.append_assoc]

theorem ExamGrader.foldl_totals (results : List ResultPtr) (total : ℚ) (highest lowest : Int) :
    results.foldl
      (fun (acc : ℚ × Int × Int) result =>
        let score : Int := result.getScore
        (acc.1 + (score : ℚ),
         if score > acc.2.1 then score else acc.2.1,
         if score < acc.2.2 then score else acc.2.2))
      (total, highest, lowest)
      = (total + (results.map (fun res => (res.getScore : ℚ))).sum,
         (results.map ResultPtr.getScore).foldl max highest,
         (results.map ResultPtr.getScore).foldl min lowest) := by
  induction results generalizing total highest lowest with
  | nil => simp
  | cons r rest ih =>
    rw [List.foldl_cons]
    simp only [ih, List.map_cons, List.sum_cons, List.foldl_cons]
    have hmax : (if r.getScore > highest then r.getScore else highest) = max highest r.getScore := by
      rcases le_or_lt r.getScore highest with hle | hlt
      · rw [if_neg (not_lt.2 hle), max_eq_left hle]
      · rw [if_pos hlt, max_eq_right hlt.le]
    have hmin : (if r.getScore < lowest then r.getScore else lowest) = min lowest r.getScore := by
      rcases le_or_lt lowest r.getScore with hle | hlt
      · rw [if_neg (not_lt.2 hle), min_eq_left hle]
      · rw [if_pos hlt, min_eq_right hlt.le]
    rw [hmax, hmin, add_assoc]

theorem ExamGrader.foldl_max_spec (scores : List Int) (start : Int) :
    start ≤ scores.foldl max start
    ∧ (∀ x ∈ scores, x ≤ scores.foldl max start)
    ∧ (scores.foldl max start = start ∨ scores.foldl max start ∈ scores) := by
  induction scores generalizing start with
  | nil => simp
  | cons x rest ih =>
    obtain ⟨h1, h2, h3⟩ := ih (max start x)
    rw [List.foldl_cons]
    refine ⟨le_trans (le_max_left _ _) h1, ?_, ?_⟩
    · intro y hy
      rcases List.mem_cons.1 hy with hyx | hyr
      · subst hyx; exact le_trans (le_max_right _ _) h1
      · exact h2 y hyr
    · rcases h3 with h3 | h3
      · rcases le_total start x with hle | hle
        · right; rw [h3, max_eq_right hle]; exact List.mem_cons_self _ _
        · left; rw [h3, max_eq_left hle]
      · right; exact List.mem_cons_of_mem _ h3

theorem ExamGrader.foldl_min_spec (scores : List Int) (start : Int) :
    scores.foldl min start ≤ start
    ∧ (∀ x ∈ scores, scores.foldl min start ≤ x)
    ∧ (scores.foldl min start = start ∨ scores.foldl min start ∈ scores) := by
  induction scores generalizing start with
  | nil => simp
  | cons x rest ih =>
    obtain ⟨h1, h2, h3⟩ := ih (min start x)
    rw [List.foldl_cons]
    refine ⟨le_trans h1 (min_le_left _ _), ?_, ?_⟩
    · intro y hy
      rcases List.mem_cons.1 hy with hyx | hyr
      · subst hyx; exact le_trans h1 (min_le_right _ _)
      · exact h2 y hyr
    · rcases h3 with h3 | h3
      · rcases le_total start x with hle | hle
        · left; rw [h3, min_eq_left hle]
        · right; rw [h3, min_eq_right hle]; exact List.mem_cons_self _ _
      · right; exact List.mem_cons_of_mem _ h3

/-- C23 (the code at the failing input): the session of student 7 for exam 1000 is in the
registry and not finished; `gradeExamSession` grades it all the same and the store then holds
the Result of score 50 for exam 1000. `displayExamStatistics(1000)` collects results only
through the finished sessions of the registry and so prints "No results found", where the
Results of the store for exam 1000 have the count 1 and the average, highest and lowest score
50; it reports these figures only once the session is finished. -/
theorem displayExamStatistics_depends_on_sessions :
    ExamGrader.gradeExamSession (sampleManager mcqExam) true GradingSystem.new
        (some (sampleSession 7 1000 [(1, "A"), (2, "C")]))
      = (.ok (), gradedSystem)
    ∧ (gradedSystem.results.find 7).map
        (fun held => held.filter (fun result => result.getExamID == 1000))
      = some [.mcq ⟨⟨7, 1000, 50, "MCQ"⟩, 1, 2⟩]
    ∧ ExamGrader.displayExamStatistics (sampleManager mcqExam)
        ⟨[sampleSession 7 1000 [(1, "A"), (2, "C")]]⟩ gradedSystem 1000 = .ok none
    ∧ ExamGrader.displayExamStatistics (sampleManager mcqExam) ⟨[]⟩ gradedSystem 1000 = .ok none
    ∧ ExamGrader.displayExamStatistics (sampleManager mcqExam)
        ⟨[{ sampleSession 7 1000 [(1, "A"), (2, "C")] with isFinished := true }]⟩ gradedSystem 1000
      = .ok (some ⟨1000, "Algebra", 1, 50, 50, 50⟩) := by
  have hshown : ExamGrader.displayExamStatistics (sampleManager mcqExam)
      ⟨[{ sampleSession 7 1000 [(1, "A"), (2, "C")] with isFinished := true }]⟩ gradedSystem 1000
      = .ok (some ⟨1000, "Algebra", 1, (0 + ((50 : Int) : ℚ)) / ((1 : Nat) : ℚ), 50, 50⟩) := rfl
  refine ⟨rfl, rfl, rfl, rfl, ?_⟩
  rw [hshown]
  norm_num

/-- What `displayExamStatistics` computes: it ranges over `statisticsResults`, the Results with
the exam ID held for the students of the finished sessions of the registry for that exam. When
there is none it prints "No results found"; otherwise, the exam being in the exam manager, it
reports their number, the mean of their scores, the maximum of 0 and their scores and the
minimum of 100 and their scores. -/
theorem ExamGrader.displayExamStatistics_over_sessions (em : ExamManager) (sm : SessionManager)
    (gs : GradingSystem) (examID : Int) :
    (statisticsResults sm gs examID = [] →
      ExamGrader.displayExamStatistics em sm gs examID = .ok none)
    ∧ (∀ exam : Exam, statisticsResults sm gs examID ≠ [] → em.getExam examID = some exam →
        ∃ shown : StatisticsDisplay,
          ExamGrader.displayExamStatistics em sm gs examID = .ok (some shown)
          ∧ shown.numberOfStudents = (statisticsResults sm gs examID).length
          ∧ shown.averageScore = meanScore (statisticsResults sm gs examID)
          ∧ shown.highestScore
              = ((statisticsResults sm gs examID).map ResultPtr.getScore).foldl max 0
          ∧ shown.lowestScore
              = ((statisticsResults sm gs examID).map ResultPtr.getScore).foldl min 100
          ∧ ((∀ r ∈ statisticsResults sm gs examID, 0 ≤ r.getScore ∧ r.getScore ≤ 100) →
              (∃ r ∈ statisticsResults sm gs examID, r.getScore = shown.highestScore)
              ∧ (∀ r ∈ statisticsResults sm gs examID, r.getScore ≤ shown.highestScore)
              ∧ (∃ r ∈ statisticsResults sm gs examID, r.getScore = shown.lowestScore)
              ∧ (∀ r ∈ statisticsResults sm gs examID, shown.lowestScore ≤ r.getScore))) := by
  have hcollect : ExamGrader.collectExamResults gs examID sm.getAllSessions []
      = statisticsResults sm gs examID := by
    rw [SessionManager.getAllSessions, ExamGrader.collectExamResults_eq]
    simp
  constructor
  · intro hempty
    unfold ExamGrader.displayExamStatistics
    simp [hcollect, hempty]
  · intro exam hne hexam
    have hfind : em.container.find examID = some exam := hexam
    have hnotEmpty : (statisticsResults sm gs examID).isEmpty = false := by
      cases hs : statisticsResults sm gs examID with
      | nil => exact absurd hs hne
      | cons r rest => rfl
    obtain ⟨hmax0, hmaxle, hmaxmem⟩ :=
      ExamGrader.foldl_max_spec ((statisticsResults sm gs examID).map ResultPtr.getScore) 0
    obtain ⟨hmin0, hminle, hminmem⟩ :=
      ExamGrader.foldl_min_spec ((statisticsResults sm gs examID).map ResultPtr.getScore) 100
    have hshown : ExamGrader.displayExamStatistics em sm gs examID
        = .ok (some
            { examID := examID, subject := exam.subject,
              numberOfStudents := (statisticsResults sm gs examID).length,
              averageScore :=
                ((statisticsResults sm gs examID).map (fun res => (res.getScore : ℚ))).sum
                  / ((statisticsResults sm gs examID).length : ℚ),
              highestScore :=
                ((statisticsResults sm gs examID).map ResultPtr.getScore).foldl max 0,
              lowestScore :=
                ((statisticsResults sm gs examID).map ResultPtr.getScore).foldl min 100 }) := by
      unfold ExamGrader.displayExamStatistics
      simp only [hcollect, hnotEmpty, Bool.false_eq_true, if_false, ExamGrader.foldl_totals,
        ExamManager.getExamSubject, hfind, zero_add]
    refine ⟨_, hshown, rfl, ?_, rfl, rfl, ?_⟩
    · simp [meanScore, hnotEmpty]
    · intro hrange
      obtain ⟨r0, hr0⟩ := List.exists_mem_of_ne_nil _ hne
      have hmem0 : r0.getScore ∈ (statisticsResults sm gs examID).map ResultPtr.getScore :=
        List.mem_map_of_mem _ hr0
      refine ⟨?_, ?_, ?_, ?_⟩
      · rcases hmaxmem with h | h
        · refine ⟨r0, hr0, ?_⟩
          have h1 := hmaxle _ hmem0
          have h2 := (hrange r0 hr0).1
          dsimp only
          omega
        · obtain ⟨r, hr, hrs⟩ := List.mem_map.1 h
          exact ⟨r, hr, hrs⟩
      · intro r hr
        exact hmaxle _ (List.mem_map_of_mem _ hr)
      · rcases hminmem with h | h
        · refine ⟨r0, hr0, ?_⟩
          have h1 := hminle _ hmem0
          have h2 := (hrange r0 hr0).2
          dsimp only
          omega
        · obtain ⟨r, hr, hrs⟩ := List.mem_map.1 h
          exact ⟨r, hr, hrs⟩
      · intro r hr
        exact hminle _ (List.mem_map_of_mem _ hr)

end ExamSystem
